import Mathlib

/-!
Verification of the guardrail / admission-control layer and audit trail of the
google-calendar-tasks-mcp server.

The embedding below is a shallow translation of the TypeScript sources:
  * `src/errors.ts`      : error codes, `GuardrailError`, `apiError`
  * `src/guardrails.ts`  : `GuardrailContext` (the Gmail-aware version, whose
                            state also tracks the Gmail send/modify counters)
  * `src/calendar.ts`, `src/tasks.ts`, `src/gmail.ts` : the mutating operation
                            handlers (`createEvent`, ..., `sendMessage`)
  * `src/audit.ts`       : the audit logger (modelled from the specification,
                            see the doc comments on the audit definitions)

Conventions of the embedding:
  * JS `Date` values are modelled as integer millisecond timestamps; the
    wall clock observed by a handler is a `Clock` record carrying the current
    UTC date string, the current time in ms, and the current ISO instant.
  * `throw new GuardrailError(...)` in a check is modelled by returning the
    pair (state after the call, `some error`); `(state, none)` is a normal
    return.  The state component is returned in both cases because the
    mutation performed by `ensureDateCurrent` survives a thrown check.
  * Each remote endpoint used by a handler is modelled by the outcome the
    remote API would give for that call (`Except ApiFailure data`); a raised
    transport error carries the HTTP status used by `withErrorHandling`.
  * A handler evaluates to an `Outcome`: the returned `ToolResult` (success
    payload abstracted to its labelled fields), the guardrail state after the
    call, the list of remote calls attempted in order, and the audit entries
    durably recorded.  `auditOk` says whether the `audit.log` promise
    resolves; the handler catches a rejection, so it only affects the
    recorded entries.
-/

namespace GcalMcp

/-- Error codes of `errors.ts`, together with the Gmail guardrail codes
thrown by `src/guardrails.ts` (`SEND_LIMIT_REACHED`, `ATTACHMENT_TOO_LARGE`,
`BLOCKED_ATTACHMENT_TYPE`). -/
inductive ErrorCode
  | DAILY_LIMIT_REACHED
  | SEND_LIMIT_REACHED
  | PROTECTED_RESOURCE
  | PAST_EVENT_PROTECTED
  | RECURRING_SERIES_BLOCKED
  | ATTACHMENT_TOO_LARGE
  | BLOCKED_ATTACHMENT_TYPE
  | AUTH_EXPIRED
  | AUTH_MISSING
  | NOT_FOUND
  | VALIDATION_ERROR
  | API_ERROR
  deriving DecidableEq, Repr

/-- `StructuredError` of `errors.ts`: the uniform error shape
`(error: true, code, message)` returned to the calling agent. -/
structure StructuredError where
  error : Bool
  code : ErrorCode
  message : String
  deriving DecidableEq, Repr

/-- `GuardrailError` of `errors.ts` (an `Error` subclass carrying a code). -/
structure GuardrailError where
  code : ErrorCode
  message : String
  deriving DecidableEq, Repr

/-- `GuardrailError.toStructured` of `errors.ts`. -/
def GuardrailError.toStructured (e : GuardrailError) : StructuredError :=
  { error := true, code := e.code, message := e.message }

/-- `apiError` of `errors.ts`: HTTP-status translation of remote failures. -/
def apiError (status : Nat) (message : String) : StructuredError :=
  if status = 401 then { error := true, code := .AUTH_EXPIRED, message := message }
  else if status = 404 then { error := true, code := .NOT_FOUND, message := message }
  else { error := true, code := .API_ERROR, message := message }

/-- `GmailGuardrailConfig` of `guardrails.ts`. -/
structure GmailGuardrailConfig where
  dailySendLimit : Nat
  dailyModifyLimit : Nat
  maxAttachmentSizeMB : Nat
  blockedAttachmentTypes : List String
  requireApprovalForSend : Bool
  deriving DecidableEq, Repr

/-- `GuardrailConfig` of `guardrails.ts`. -/
structure GuardrailConfig where
  dailyWriteLimit : Nat
  pastEventProtectionDays : Nat
  protectedCalendars : List String
  protectedTaskLists : List String
  allowRecurringSeriesDelete : Bool
  gmail : Option GmailGuardrailConfig
  deriving DecidableEq, Repr

/-- The mutable fields of `GuardrailContext`: the three day-scoped counters
and the stored counters date (`writeCountDate`). -/
structure GuardState where
  writeCount : Nat
  gmailSendCount : Nat
  gmailModifyCount : Nat
  writeCountDate : String
  deriving DecidableEq, Repr

/-- `GuardrailContext.ensureDateCurrent`: if the stored date is not the
current UTC date, reset all three counters to 0 and advance the date. -/
def ensureDateCurrent (today : String) (s : GuardState) : GuardState :=
  if s.writeCountDate ≠ today then
    { writeCount := 0, gmailSendCount := 0, gmailModifyCount := 0, writeCountDate := today }
  else s

/-- Result of a check call: the state after the call, and the thrown
`GuardrailError` if any. -/
abbrev CheckResult := GuardState × Option GuardrailError

/-- `GuardrailContext.checkWriteLimit`. -/
def checkWriteLimit (cfg : GuardrailConfig) (today : String) (cost : Nat)
    (s : GuardState) : CheckResult :=
  let s' := ensureDateCurrent today s
  if s'.writeCount + cost > cfg.dailyWriteLimit then
    (s', some ⟨.DAILY_LIMIT_REACHED, "Daily write limit reached"⟩)
  else (s', none)

/-- `GuardrailContext.checkProtectedCalendar` (note: the source does not call
`ensureDateCurrent` here; the state is returned untouched). -/
def checkProtectedCalendar (cfg : GuardrailConfig) (calendarId : String)
    (s : GuardState) : CheckResult :=
  if calendarId ∈ cfg.protectedCalendars then
    (s, some ⟨.PROTECTED_RESOURCE, "Calendar is protected"⟩)
  else (s, none)

/-- `GuardrailContext.checkProtectedTaskList` (no `ensureDateCurrent` in the
source). -/
def checkProtectedTaskList (cfg : GuardrailConfig) (taskListId : String)
    (s : GuardState) : CheckResult :=
  if taskListId ∈ cfg.protectedTaskLists then
    (s, some ⟨.PROTECTED_RESOURCE, "Task list is protected"⟩)
  else (s, none)

/-- `GuardrailContext.checkPastEventProtection`.  The event end time and the
current time are millisecond timestamps; the source computes
`diffDays = diffMs / 86400000` with real division and blocks when
`diffDays >= pastEventProtectionDays`. -/
def checkPastEventProtection (cfg : GuardrailConfig) (nowMs : Int)
    (eventEndMs : Int) (s : GuardState) : CheckResult :=
  let diffMs : Int := nowMs - eventEndMs
  let diffDays : Rat := (diffMs : Rat) / (1000 * 60 * 60 * 24)
  if diffDays ≥ (cfg.pastEventProtectionDays : Rat) then
    (s, some ⟨.PAST_EVENT_PROTECTED, "Cannot modify past event"⟩)
  else (s, none)

/-- The `(recurrence?, recurringEventId?)` shape consumed by
`checkRecurringSeriesDelete`. -/
structure EventRef where
  recurrence : Option (List String)
  recurringEventId : Option String
  deriving DecidableEq, Repr

/-- JS truthiness of an optional string (`undefined` and `""` are falsy). -/
def truthyStr : Option String → Bool
  | none => false
  | some st => st ≠ ""

/-- The `isSeriesMaster` test of `checkRecurringSeriesDelete`:
`event.recurrence && event.recurrence.length > 0 && !event.recurringEventId`. -/
def isSeriesMaster (event : EventRef) : Bool :=
  (match event.recurrence with
   | none => false
   | some l => decide (l.length > 0)) && !(truthyStr event.recurringEventId)

/-- `GuardrailContext.checkRecurringSeriesDelete`. -/
def checkRecurringSeriesDelete (cfg : GuardrailConfig) (event : EventRef)
    (s : GuardState) : CheckResult :=
  if !cfg.allowRecurringSeriesDelete then
    if isSeriesMaster event then
      (s, some ⟨.RECURRING_SERIES_BLOCKED, "Cannot delete a recurring event series"⟩)
    else (s, none)
  else (s, none)

/-- `GuardrailContext.checkGmailSendLimit` (default limit 5). -/
def checkGmailSendLimit (cfg : GuardrailConfig) (today : String) (cost : Nat)
    (s : GuardState) : CheckResult :=
  let s' := ensureDateCurrent today s
  let limit := match cfg.gmail with
    | some g => g.dailySendLimit
    | none => 5
  if s'.gmailSendCount + cost > limit then
    (s', some ⟨.SEND_LIMIT_REACHED, "Daily email send limit reached"⟩)
  else (s', none)

/-- `GuardrailContext.checkGmailModifyLimit` (default limit 100; note the
source throws `DAILY_LIMIT_REACHED`, not a Gmail-specific code). -/
def checkGmailModifyLimit (cfg : GuardrailConfig) (today : String) (cost : Nat)
    (s : GuardState) : CheckResult :=
  let s' := ensureDateCurrent today s
  let limit := match cfg.gmail with
    | some g => g.dailyModifyLimit
    | none => 100
  if s'.gmailModifyCount + cost > limit then
    (s', some ⟨.DAILY_LIMIT_REACHED, "Daily Gmail modify limit reached"⟩)
  else (s', none)

/-- `GuardrailContext.checkAttachmentSize` (default limit 10 MB; no
`ensureDateCurrent` in the source). -/
def checkAttachmentSize (cfg : GuardrailConfig) (sizeBytes : Nat)
    (s : GuardState) : CheckResult :=
  let limitMB := match cfg.gmail with
    | some g => g.maxAttachmentSizeMB
    | none => 10
  if sizeBytes > limitMB * 1024 * 1024 then
    (s, some ⟨.ATTACHMENT_TOO_LARGE, "Attachment exceeds size limit"⟩)
  else (s, none)

/-- `GuardrailContext.checkAttachmentType` (no `ensureDateCurrent` in the
source). -/
def checkAttachmentType (cfg : GuardrailConfig) (mimeType : String)
    (s : GuardState) : CheckResult :=
  let blocked := match cfg.gmail with
    | some g => g.blockedAttachmentTypes
    | none => []
  if mimeType ∈ blocked then
    (s, some ⟨.BLOCKED_ATTACHMENT_TYPE, "Attachment type is blocked"⟩)
  else (s, none)

/-- `GuardrailContext.incrementWriteCounter`. -/
def incrementWriteCounter (today : String) (cost : Nat) (s : GuardState) : GuardState :=
  let s' := ensureDateCurrent today s
  { s' with writeCount := s'.writeCount + cost }

/-- `GuardrailContext.incrementGmailSendCounter`. -/
def incrementGmailSendCounter (today : String) (cost : Nat) (s : GuardState) : GuardState :=
  let s' := ensureDateCurrent today s
  { s' with gmailSendCount := s'.gmailSendCount + cost }

/-- `GuardrailContext.incrementGmailModifyCounter`. -/
def incrementGmailModifyCounter (today : String) (cost : Nat) (s : GuardState) : GuardState :=
  let s' := ensureDateCurrent today s
  { s' with gmailModifyCount := s'.gmailModifyCount + cost }

/-! ## Operation handlers -/

/-- The wall clock observed during one handler invocation: the current UTC
date string (`todayUTC()`), the current time in milliseconds, and the
current ISO instant used for audit timestamps. -/
structure Clock where
  today : String
  nowMs : Int
  nowIso : String
  deriving DecidableEq, Repr

/-- A raised transport error, reduced to the fields `withErrorHandling`
consumes: `err.response?.status ?? 500` and `err.message`. -/
structure ApiFailure where
  status : Nat
  message : String
  deriving DecidableEq, Repr

/-- `AuditEntry` of `audit.ts` (the `changes` map is modelled as an ordered
association list of field name / rendered value). -/
structure AuditEntry where
  operation : String
  service : String
  title : String
  googleId : String
  changes : Option (List (String × String))
  timestamp : String
  source : String
  deriving DecidableEq, Repr

/-- A calendar event as read back from the remote API, reduced to the fields
the handlers consume: the id, the summary, the resolved end time
(`end?.dateTime ?? end?.date`, parsed to milliseconds), and the recurrence
fields used by `checkRecurringSeriesDelete`. -/
structure EventData where
  id : Option String
  summary : Option String
  endTimeMs : Option Int
  recurrence : Option (List String)
  recurringEventId : Option String
  deriving DecidableEq, Repr

/-- A task as read back from the remote API, reduced to the fields the
handlers consume. -/
structure TaskData where
  id : Option String
  title : Option String
  notes : Option String
  due : Option String
  status : Option String
  deriving DecidableEq, Repr

/-- A Gmail message response, reduced to the fields the handlers consume. -/
structure GmailMsgData where
  id : Option String
  threadId : Option String
  labelIds : List String
  deriving DecidableEq, Repr

/-- A Gmail label response, reduced to the fields the handlers consume. -/
structure GmailLabelData where
  id : Option String
  name : Option String
  deriving DecidableEq, Repr

deriving instance DecidableEq for Except

/-- The behaviour of the remote calendar API during one handler invocation:
the outcome each endpoint would produce if called. -/
structure CalendarApi where
  get : Except ApiFailure EventData
  insert : Except ApiFailure EventData
  patch : Except ApiFailure EventData
  delete : Except ApiFailure Unit
  deriving DecidableEq

/-- The behaviour of the remote tasks API during one handler invocation. -/
structure TasksApi where
  get : Except ApiFailure TaskData
  insert : Except ApiFailure TaskData
  patch : Except ApiFailure TaskData
  delete : Except ApiFailure Unit
  deriving DecidableEq

/-- The behaviour of the remote Gmail API during one handler invocation. -/
structure GmailApi where
  modify : Except ApiFailure GmailMsgData
  send : Except ApiFailure GmailMsgData
  labelCreate : Except ApiFailure GmailLabelData
  deriving DecidableEq

/-- The observable outcome of one handler invocation: the `ToolResult`
(success payload abstracted to labelled string fields, or the structured
error), the guardrail state after the call, the remote endpoints called in
order, and the audit entries durably recorded. -/
structure Outcome where
  result : Except StructuredError (List (String × String))
  state : GuardState
  remoteCalls : List String
  auditEntries : List AuditEntry
  deriving DecidableEq

/-- The remote endpoints that mutate remote state (the guarded calls); the
`get` endpoints are reads. -/
def mutatingEndpoints : List String :=
  ["events.insert", "events.patch", "events.delete",
   "tasks.insert", "tasks.patch", "tasks.delete",
   "messages.modify", "messages.send", "labels.create"]

/-- The mutating remote calls among a handler's remote calls. -/
def mutatingCalls (calls : List String) : List String :=
  calls.filter (fun c => c ∈ mutatingEndpoints)

/-- Short-circuit outcome for a thrown `GuardrailError` caught by
`withErrorHandling`. -/
def guardrailOutcome (e : GuardrailError) (s : GuardState)
    (calls : List String) : Outcome :=
  { result := .error e.toStructured, state := s, remoteCalls := calls, auditEntries := [] }

/-- Short-circuit outcome for a raised transport error caught by
`withErrorHandling` and mapped through `apiError`. -/
def apiFailureOutcome (f : ApiFailure) (s : GuardState)
    (calls : List String) : Outcome :=
  { result := .error (apiError f.status f.message), state := s,
    remoteCalls := calls, auditEntries := [] }

/-- `createEvent` parameters (the optional location/description fields do not
influence control flow and are kept for the audit-free payload only). -/
structure CreateEventParams where
  calendarId : String
  title : String
  date : String
  startTime : String
  endTime : String
  deriving DecidableEq, Repr

/-- `calendar.ts` `createEvent`: check write limit, check protected calendar,
insert remotely, commit the counter, best-effort audit, return the payload. -/
def createEvent (params : CreateEventParams) (api : CalendarApi)
    (cfg : GuardrailConfig) (clock : Clock) (auditOk : Bool)
    (s0 : GuardState) : Outcome :=
  match checkWriteLimit cfg clock.today 1 s0 with
  | (s1, some e) => guardrailOutcome e s1 []
  | (s1, none) =>
    match checkProtectedCalendar cfg params.calendarId s1 with
    | (s2, some e) => guardrailOutcome e s2 []
    | (s2, none) =>
      match api.insert with
      | .error f => apiFailureOutcome f s2 ["events.insert"]
      | .ok data =>
        let s3 := incrementWriteCounter clock.today 1 s2
        let entry : AuditEntry :=
          { operation := "create", service := "calendar", title := params.title,
            googleId := data.id.getD "", changes := none,
            timestamp := clock.nowIso, source := "mcp" }
        { result := .ok [("id", data.id.getD ""), ("title", data.summary.getD "")],
          state := s3, remoteCalls := ["events.insert"],
          auditEntries := if auditOk then [entry] else [] }

/-- `updateEvent` parameters. -/
structure UpdateEventParams where
  calendarId : String
  eventId : String
  title : Option String
  date : Option String
  startTime : Option String
  endTime : Option String
  location : Option String
  description : Option String
  deriving DecidableEq, Repr

/-- The `changes` record built by `updateEvent` from the provided fields, in
source order (title, startTime, date, endTime, location, description). -/
def updateEventChanges (params : UpdateEventParams) : List (String × String) :=
  (match params.title with | some t => [("title", t)] | none => []) ++
  (match params.startTime with | some t => [("startTime", t)] | none => []) ++
  (match params.date with | some d => [("date", d)] | none => []) ++
  (match params.endTime with | some t => [("endTime", t)] | none => []) ++
  (match params.location with | some l => [("location", l)] | none => []) ++
  (match params.description with | some d => [("description", d)] | none => [])

/-- `calendar.ts` `updateEvent`: check write limit, check protected calendar,
fetch the existing event, run past-event protection on its end time when
present, patch remotely, commit the counter, best-effort audit. -/
def updateEvent (params : UpdateEventParams) (api : CalendarApi)
    (cfg : GuardrailConfig) (clock : Clock) (auditOk : Bool)
    (s0 : GuardState) : Outcome :=
  match checkWriteLimit cfg clock.today 1 s0 with
  | (s1, some e) => guardrailOutcome e s1 []
  | (s1, none) =>
    match checkProtectedCalendar cfg params.calendarId s1 with
    | (s2, some e) => guardrailOutcome e s2 []
    | (s2, none) =>
      match api.get with
      | .error f => apiFailureOutcome f s2 ["events.get"]
      | .ok existing =>
        let pastCheck : CheckResult :=
          match existing.endTimeMs with
          | some endMs => checkPastEventProtection cfg clock.nowMs endMs s2
          | none => (s2, none)
        match pastCheck with
        | (s3, some e) => guardrailOutcome e s3 ["events.get"]
        | (s3, none) =>
          match api.patch with
          | .error f => apiFailureOutcome f s3 ["events.get", "events.patch"]
          | .ok data =>
            let s4 := incrementWriteCounter clock.today 1 s3
            let entry : AuditEntry :=
              { operation := "update", service := "calendar",
                title := data.summary.getD (params.title.getD ""),
                googleId := data.id.getD params.eventId,
                changes := some (updateEventChanges params),
                timestamp := clock.nowIso, source := "mcp" }
            { result := .ok [("id", data.id.getD ""), ("title", data.summary.getD "")],
              state := s4, remoteCalls := ["events.get", "events.patch"],
              auditEntries := if auditOk then [entry] else [] }

/-- `deleteEvent` parameters. -/
structure DeleteEventParams where
  calendarId : String
  eventId : String
  deriving DecidableEq, Repr

/-- `calendar.ts` `deleteEvent`: check write limit, check protected calendar,
fetch the existing event, run past-event protection and the recurring-series
check, delete remotely, commit the counter, best-effort audit. -/
def deleteEvent (params : DeleteEventParams) (api : CalendarApi)
    (cfg : GuardrailConfig) (clock : Clock) (auditOk : Bool)
    (s0 : GuardState) : Outcome :=
  match checkWriteLimit cfg clock.today 1 s0 with
  | (s1, some e) => guardrailOutcome e s1 []
  | (s1, none) =>
    match checkProtectedCalendar cfg params.calendarId s1 with
    | (s2, some e) => guardrailOutcome e s2 []
    | (s2, none) =>
      match api.get with
      | .error f => apiFailureOutcome f s2 ["events.get"]
      | .ok existing =>
        let pastCheck : CheckResult :=
          match existing.endTimeMs with
          | some endMs => checkPastEventProtection cfg clock.nowMs endMs s2
          | none => (s2, none)
        match pastCheck with
        | (s3, some e) => guardrailOutcome e s3 ["events.get"]
        | (s3, none) =>
          match checkRecurringSeriesDelete cfg
              ⟨existing.recurrence, existing.recurringEventId⟩ s3 with
          | (s4, some e) => guardrailOutcome e s4 ["events.get"]
          | (s4, none) =>
            match api.delete with
            | .error f => apiFailureOutcome f s4 ["events.get", "events.delete"]
            | .ok _ =>
              let s5 := incrementWriteCounter clock.today 1 s4
              let entry : AuditEntry :=
                { operation := "delete", service := "calendar",
                  title := existing.summary.getD "(no title)",
                  googleId := params.eventId, changes := none,
                  timestamp := clock.nowIso, source := "mcp" }
              { result := .ok [("success", "true"),
                               ("deletedTitle", existing.summary.getD "(no title)")],
                state := s5, remoteCalls := ["events.get", "events.delete"],
                auditEntries := if auditOk then [entry] else [] }

/-- `resolveListId` of `tasks.ts`. -/
def resolveListId (taskListId : Option String) : String :=
  taskListId.getD "@default"

/-- `createTask` parameters. -/
structure CreateTaskParams where
  taskListId : Option String
  title : String
  due : Option String
  notes : Option String
  deriving DecidableEq, Repr

/-- `tasks.ts` `createTask`: check write limit, check protected task list,
insert remotely, commit the counter, best-effort audit. -/
def createTask (params : CreateTaskParams) (api : TasksApi)
    (cfg : GuardrailConfig) (clock : Clock) (auditOk : Bool)
    (s0 : GuardState) : Outcome :=
  let listId := resolveListId params.taskListId
  match checkWriteLimit cfg clock.today 1 s0 with
  | (s1, some e) => guardrailOutcome e s1 []
  | (s1, none) =>
    match checkProtectedTaskList cfg listId s1 with
    | (s2, some e) => guardrailOutcome e s2 []
    | (s2, none) =>
      match api.insert with
      | .error f => apiFailureOutcome f s2 ["tasks.insert"]
      | .ok data =>
        let s3 := incrementWriteCounter clock.today 1 s2
        let entry : AuditEntry :=
          { operation := "create", service := "tasks", title := params.title,
            googleId := data.id.getD "", changes := none,
            timestamp := clock.nowIso, source := "mcp" }
        { result := .ok [("id", data.id.getD ""), ("title", data.title.getD "")],
          state := s3, remoteCalls := ["tasks.insert"],
          auditEntries := if auditOk then [entry] else [] }

/-- `updateTask` parameters. -/
structure UpdateTaskParams where
  taskListId : String
  taskId : String
  title : Option String
  due : Option String
  notes : Option String
  status : Option String
  deriving DecidableEq, Repr

/-- The `changes` record built by `updateTask` from the provided fields, in
source order (title, due, notes, status). -/
def updateTaskChanges (params : UpdateTaskParams) : List (String × String) :=
  (match params.title with | some t => [("title", t)] | none => []) ++
  (match params.due with | some d => [("due", d)] | none => []) ++
  (match params.notes with | some n => [("notes", n)] | none => []) ++
  (match params.status with | some st => [("status", st)] | none => [])

/-- `tasks.ts` `updateTask`: check write limit, check protected task list,
fetch the existing task, patch remotely, commit the counter, best-effort
audit. -/
def updateTask (params : UpdateTaskParams) (api : TasksApi)
    (cfg : GuardrailConfig) (clock : Clock) (auditOk : Bool)
    (s0 : GuardState) : Outcome :=
  match checkWriteLimit cfg clock.today 1 s0 with
  | (s1, some e) => guardrailOutcome e s1 []
  | (s1, none) =>
    match checkProtectedTaskList cfg params.taskListId s1 with
    | (s2, some e) => guardrailOutcome e s2 []
    | (s2, none) =>
      match api.get with
      | .error f => apiFailureOutcome f s2 ["tasks.get"]
      | .ok existing =>
        match api.patch with
        | .error f => apiFailureOutcome f s2 ["tasks.get", "tasks.patch"]
        | .ok data =>
          let s3 := incrementWriteCounter clock.today 1 s2
          let entry : AuditEntry :=
            { operation := "update", service := "tasks",
              title := data.title.getD (params.title.getD (existing.title.getD "")),
              googleId := data.id.getD params.taskId,
              changes := some (updateTaskChanges params),
              timestamp := clock.nowIso, source := "mcp" }
          { result := .ok [("id", data.id.getD ""), ("title", data.title.getD ""),
                           ("status", data.status.getD "")],
            state := s3, remoteCalls := ["tasks.get", "tasks.patch"],
            auditEntries := if auditOk then [entry] else [] }

/-- `deleteTask` parameters. -/
structure DeleteTaskParams where
  taskListId : String
  taskId : String
  deriving DecidableEq, Repr

/-- `tasks.ts` `deleteTask`: check write limit, check protected task list,
fetch the existing task for the audit title, delete remotely, commit the
counter, best-effort audit. -/
def deleteTask (params : DeleteTaskParams) (api : TasksApi)
    (cfg : GuardrailConfig) (clock : Clock) (auditOk : Bool)
    (s0 : GuardState) : Outcome :=
  match checkWriteLimit cfg clock.today 1 s0 with
  | (s1, some e) => guardrailOutcome e s1 []
  | (s1, none) =>
    match checkProtectedTaskList cfg params.taskListId s1 with
    | (s2, some e) => guardrailOutcome e s2 []
    | (s2, none) =>
      match api.get with
      | .error f => apiFailureOutcome f s2 ["tasks.get"]
      | .ok existing =>
        match api.delete with
        | .error f => apiFailureOutcome f s2 ["tasks.get", "tasks.delete"]
        | .ok _ =>
          let s3 := incrementWriteCounter clock.today 1 s2
          let entry : AuditEntry :=
            { operation := "delete", service := "tasks",
              title := existing.title.getD "(no title)",
              googleId := params.taskId, changes := none,
              timestamp := clock.nowIso, source := "mcp" }
          { result := .ok [("success", "true"),
                           ("deletedTitle", existing.title.getD "(no title)")],
            state := s3, remoteCalls := ["tasks.get", "tasks.delete"],
            auditEntries := if auditOk then [entry] else [] }

/-- `completeTask` parameters. -/
structure CompleteTaskParams where
  taskListId : String
  taskId : String
  deriving DecidableEq, Repr

/-- `tasks.ts` `completeTask`: check write limit, check protected task list,
patch the status remotely, commit the counter, best-effort audit. -/
def completeTask (params : CompleteTaskParams) (api : TasksApi)
    (cfg : GuardrailConfig) (clock : Clock) (auditOk : Bool)
    (s0 : GuardState) : Outcome :=
  match checkWriteLimit cfg clock.today 1 s0 with
  | (s1, some e) => guardrailOutcome e s1 []
  | (s1, none) =>
    match checkProtectedTaskList cfg params.taskListId s1 with
    | (s2, some e) => guardrailOutcome e s2 []
    | (s2, none) =>
      match api.patch with
      | .error f => apiFailureOutcome f s2 ["tasks.patch"]
      | .ok data =>
        let s3 := incrementWriteCounter clock.today 1 s2
        let entry : AuditEntry :=
          { operation := "complete", service := "tasks",
            title := data.title.getD "(no title)",
            googleId := data.id.getD params.taskId, changes := none,
            timestamp := clock.nowIso, source := "mcp" }
        { result := .ok [("id", data.id.getD ""), ("title", data.title.getD ""),
                         ("status", "completed")],
          state := s3, remoteCalls := ["tasks.patch"],
          auditEntries := if auditOk then [entry] else [] }

/-- `moveTask` parameters. -/
structure MoveTaskParams where
  sourceListId : String
  taskId : String
  destinationListId : String
  deriving DecidableEq, Repr

/-- `tasks.ts` `moveTask`: check write limit with cost 2, check both task
lists, fetch the task from the source list, insert into the destination,
delete from the source, commit the counter with cost 2, best-effort audit. -/
def moveTask (params : MoveTaskParams) (api : TasksApi)
    (cfg : GuardrailConfig) (clock : Clock) (auditOk : Bool)
    (s0 : GuardState) : Outcome :=
  match checkWriteLimit cfg clock.today 2 s0 with
  | (s1, some e) => guardrailOutcome e s1 []
  | (s1, none) =>
    match checkProtectedTaskList cfg params.sourceListId s1 with
    | (s2, some e) => guardrailOutcome e s2 []
    | (s2, none) =>
      match checkProtectedTaskList cfg params.destinationListId s2 with
      | (s3, some e) => guardrailOutcome e s3 []
      | (s3, none) =>
        match api.get with
        | .error f => apiFailureOutcome f s3 ["tasks.get"]
        | .ok task =>
          match api.insert with
          | .error f => apiFailureOutcome f s3 ["tasks.get", "tasks.insert"]
          | .ok newTask =>
            match api.delete with
            | .error f =>
                apiFailureOutcome f s3 ["tasks.get", "tasks.insert", "tasks.delete"]
            | .ok _ =>
              let s4 := incrementWriteCounter clock.today 2 s3
              let entry : AuditEntry :=
                { operation := "create", service := "tasks",
                  title := task.title.getD "(no title)",
                  googleId := newTask.id.getD "",
                  changes := some [("movedFrom", params.sourceListId),
                                   ("movedTo", params.destinationListId)],
                  timestamp := clock.nowIso, source := "mcp" }
              { result := .ok [("id", newTask.id.getD ""),
                               ("title", newTask.title.getD ""),
                               ("newListId", params.destinationListId)],
                state := s4,
                remoteCalls := ["tasks.get", "tasks.insert", "tasks.delete"],
                auditEntries := if auditOk then [entry] else [] }

/-- `modifyMessage` parameters. -/
structure ModifyMessageParams where
  messageId : String
  addLabelIds : Option (List String)
  removeLabelIds : Option (List String)
  deriving DecidableEq, Repr

/-- The descriptive audit title built by `modifyMessage` from the requested
label changes. -/
def modifyAuditTitle (addLabelIds removeLabelIds : Option (List String)) : String :=
  let actions : List String :=
    (if (removeLabelIds.getD []).contains "INBOX" then ["Archive"] else []) ++
    (if (addLabelIds.getD []).contains "TRASH" then ["Trash"] else []) ++
    (let adds := (addLabelIds.getD []).filter (fun l => l ≠ "TRASH")
     if adds.length > 0 then ["Label: " ++ String.intercalate ", " adds] else []) ++
    (let rems := (removeLabelIds.getD []).filter (fun l => l ≠ "INBOX")
     if rems.length > 0 then ["Unlabel: " ++ String.intercalate ", " rems] else [])
  if actions.isEmpty then "Modify message" else String.intercalate " + " actions

/-- `gmail.ts` `modifyMessage`: check the Gmail modify limit, modify the
labels remotely, commit the Gmail modify counter, best-effort audit. -/
def modifyMessage (params : ModifyMessageParams) (api : GmailApi)
    (cfg : GuardrailConfig) (clock : Clock) (auditOk : Bool)
    (s0 : GuardState) : Outcome :=
  match checkGmailModifyLimit cfg clock.today 1 s0 with
  | (s1, some e) => guardrailOutcome e s1 []
  | (s1, none) =>
    match api.modify with
    | .error f => apiFailureOutcome f s1 ["messages.modify"]
    | .ok data =>
      let s2 := incrementGmailModifyCounter clock.today 1 s1
      let entry : AuditEntry :=
        { operation := "update", service := "gmail",
          title := modifyAuditTitle params.addLabelIds params.removeLabelIds,
          googleId := "msg_" ++ params.messageId,
          changes := some
            [("addLabelIds", String.intercalate "," (params.addLabelIds.getD [])),
             ("removeLabelIds", String.intercalate "," (params.removeLabelIds.getD []))],
          timestamp := clock.nowIso, source := "mcp" }
      { result := .ok [("id", data.id.getD ""),
                       ("labelIds", String.intercalate "," data.labelIds)],
        state := s2, remoteCalls := ["messages.modify"],
        auditEntries := if auditOk then [entry] else [] }

/-- `createLabel` parameters. -/
structure CreateLabelParams where
  name : String
  deriving DecidableEq, Repr

/-- `gmail.ts` `createLabel`: check the shared write limit, create the label
remotely, commit the write counter, best-effort audit. -/
def createLabel (params : CreateLabelParams) (api : GmailApi)
    (cfg : GuardrailConfig) (clock : Clock) (auditOk : Bool)
    (s0 : GuardState) : Outcome :=
  match checkWriteLimit cfg clock.today 1 s0 with
  | (s1, some e) => guardrailOutcome e s1 []
  | (s1, none) =>
    match api.labelCreate with
    | .error f => apiFailureOutcome f s1 ["labels.create"]
    | .ok data =>
      let s2 := incrementWriteCounter clock.today 1 s1
      let entry : AuditEntry :=
        { operation := "create", service := "gmail",
          title := "Label: " ++ params.name,
          googleId := data.id.getD "", changes := none,
          timestamp := clock.nowIso, source := "mcp" }
      { result := .ok [("id", data.id.getD ""), ("name", data.name.getD "")],
        state := s2, remoteCalls := ["labels.create"],
        auditEntries := if auditOk then [entry] else [] }

/-- `sendMessage` parameters (the tool schema pins `requireApproval` to the
literal `true`, so the field does not appear here; the source field `to` is
named `toAddr` because `to` is not a usable field name in Lean). -/
structure SendMessageParams where
  toAddr : String
  subject : String
  body : String
  inReplyTo : Option String
  threadId : Option String
  deriving DecidableEq, Repr

/-- `gmail.ts` `sendMessage`: check the Gmail send limit, send the encoded
message remotely, commit the Gmail send counter, best-effort audit. -/
def sendMessage (params : SendMessageParams) (api : GmailApi)
    (cfg : GuardrailConfig) (clock : Clock) (auditOk : Bool)
    (s0 : GuardState) : Outcome :=
  match checkGmailSendLimit cfg clock.today 1 s0 with
  | (s1, some e) => guardrailOutcome e s1 []
  | (s1, none) =>
    match api.send with
    | .error f => apiFailureOutcome f s1 ["messages.send"]
    | .ok data =>
      let s2 := incrementGmailSendCounter clock.today 1 s1
      let entry : AuditEntry :=
        { operation := "create", service := "gmail",
          title := "Send: " ++ params.subject,
          googleId := "msg_" ++ data.id.getD "undefined",
          changes := some [("to", params.toAddr), ("subject", params.subject)],
          timestamp := clock.nowIso, source := "mcp" }
      { result := .ok [("id", data.id.getD ""), ("threadId", data.threadId.getD "")],
        state := s2, remoteCalls := ["messages.send"],
        auditEntries := if auditOk then [entry] else [] }

/-! ## Audit recorder

The implementation file `audit.ts` is not part of the sources at hand (only
its tests and its callers are), so the recorder is modelled from the
specification here.  The audit directory is a finite map from file name to
file content, kept as an association list; a file whose bytes do not parse
as a `(month, entries)` document is `FileContent.corrupt`. -/

/-- Content of one audit file: either unparseable bytes, or a parsed
`(month, entries)` document. -/
inductive FileContent
  | corrupt (raw : String)
  | parsed (month : String) (entries : List AuditEntry)
  deriving DecidableEq

/-- The audit directory: file name to file content. -/
abbrev AuditFs := List (String × FileContent)

/-- Look a file up by name. -/
def fsLookup : AuditFs → String → Option FileContent
  | [], _ => none
  | (k, v) :: rest, n => if k = n then some v else fsLookup rest n

/-- Write (create or replace) a file. -/
def fsWrite : AuditFs → String → FileContent → AuditFs
  | [], n, c => [(n, c)]
  | (k, v) :: rest, n, c =>
      if k = n then (n, c) :: rest else (k, v) :: fsWrite rest n c

/-- The year-month key of an audit entry: the first 7 characters of its ISO
timestamp. -/
def monthOf (entry : AuditEntry) : String := entry.timestamp.take 7

/-- The deterministic monthly file name `operations_YYYY-MM.json`. -/
def auditFileName (month : String) : String :=
  "operations_" ++ month ++ ".json"

/-- Modelled from the spec: `audit.ts` (the `FileAuditLogger.log` body) is
not under `src/`.  Per the spec (§4.2), `log` routes the entry to the file
named from the entry's year-month, parses the existing content, treats any
parse failure (missing file, corrupt bytes, wrong shape) as an empty log for
that month, appends the entry, and rewrites the `(month, entries)`
document. -/
def fileAuditLog (entry : AuditEntry) (fs : AuditFs) : AuditFs :=
  let month := monthOf entry
  let name := auditFileName month
  let prior : List AuditEntry :=
    match fsLookup fs name with
    | some (.parsed _ es) => es
    | _ => []
  fsWrite fs name (.parsed month (prior ++ [entry]))

/-- Modelled from the spec: `createAuditLogger` of `audit.ts` is not under
`src/`.  Per the spec (§4.2), with no configured directory `log` is a no-op
that still resolves; with a directory it performs the read-merge-append
rewrite and resolves in all cases observable to the caller.  The boolean is
whether the returned promise resolves. -/
def auditLoggerLog (dir : Option String) (entry : AuditEntry) (fs : AuditFs) :
    AuditFs × Bool :=
  match dir with
  | none => (fs, true)
  | some _ => (fileAuditLog entry fs, true)

/-- Sequentially log a list of entries (arrival order) through the file
logger. -/
def logAllEntries (entries : List AuditEntry) (fs : AuditFs) : AuditFs :=
  entries.foldl (fun a e => fileAuditLog e a) fs

/-- The parsed entries currently stored for a month (empty when the file is
missing or unparseable), as read by the file logger. -/
def priorEntriesAt (fs : AuditFs) (m : String) : List AuditEntry :=
  match fsLookup fs (auditFileName m) with
  | some (.parsed _ es) => es
  | _ => []

/-- The error codes produced by pre-flight policy checks (as opposed to the
codes `apiError` produces for remote transport failures). -/
def policyCode : ErrorCode → Bool
  | .DAILY_LIMIT_REACHED => true
  | .SEND_LIMIT_REACHED => true
  | .PROTECTED_RESOURCE => true
  | .PAST_EVENT_PROTECTED => true
  | .RECURRING_SERIES_BLOCKED => true
  | .ATTACHMENT_TOO_LARGE => true
  | .BLOCKED_ATTACHMENT_TYPE => true
  | _ => false

/-- The check → guarded remote call → counter commit → audit write discipline
of one handler invocation, stated on its outcome `o`:
  * any failure leaves the counters exactly as the day rollover left them and
    records no audit entry;
  * a policy rejection in particular makes no mutating remote call;
  * a success commits exactly `commit` on top of the rolled-over state, can
    only happen when the guarded remote calls resolved successfully
    (`remoteOk`), and records exactly one audit entry when the audit sink
    accepts it. -/
def pipelineDiscipline (clock : Clock) (s0 : GuardState) (auditOk : Bool)
    (o : Outcome) (commit : GuardState → GuardState) (remoteOk : Prop) : Prop :=
  ((∃ er, o.result = Except.error er) →
      o.state = ensureDateCurrent clock.today s0 ∧ o.auditEntries = []) ∧
  ((∃ er, o.result = Except.error er ∧ policyCode er.code = true) →
      mutatingCalls o.remoteCalls = []) ∧
  ((∃ pl, o.result = Except.ok pl) →
      o.state = commit (ensureDateCurrent clock.today s0) ∧ remoteOk ∧
      (auditOk = true → o.auditEntries.length = 1))

/-- The caller-observable part of an outcome apart from the audit trail: the
returned result, the guardrail state, and the remote calls made. -/
def Outcome.observable (o : Outcome) :
    Except StructuredError (List (String × String)) × GuardState × List String :=
  (o.result, o.state, o.remoteCalls)

/-! ### Concrete instances used by the witnesses -/

/-- A small concrete policy: 2 writes/day, 7 protection days, one protected
calendar and one protected task list, series delete disallowed, Gmail limits
1 send / 2 modifications. -/
def wCfg : GuardrailConfig :=
  { dailyWriteLimit := 2, pastEventProtectionDays := 7,
    protectedCalendars := ["holidays@group.v.calendar.google.com"],
    protectedTaskLists := ["protected-list-id"],
    allowRecurringSeriesDelete := false,
    gmail := some { dailySendLimit := 1, dailyModifyLimit := 2,
                    maxAttachmentSizeMB := 10, blockedAttachmentTypes := [],
                    requireApprovalForSend := true } }

/-- A state whose stored date is current on 2026-02-13 with one write used. -/
def wState : GuardState :=
  { writeCount := 1, gmailSendCount := 0, gmailModifyCount := 0,
    writeCountDate := "2026-02-13" }

/-- A state carrying nonzero counters under a stale stored date. -/
def staleState : GuardState :=
  { writeCount := 3, gmailSendCount := 2, gmailModifyCount := 1,
    writeCountDate := "2026-02-12" }

/-- A concrete clock on 2026-02-13. -/
def wClock : Clock :=
  { today := "2026-02-13", nowMs := 1770000000000,
    nowIso := "2026-02-13T14:30:00.000Z" }

/-- A concrete recurring series master (recurrence rules, no parent). -/
def wSeriesMaster : EventRef :=
  { recurrence := ["RRULE:FREQ=WEEKLY;BYDAY=MO"], recurringEventId := none }

/-- A concrete single instance of a recurring series. -/
def wSeriesInstance : EventRef :=
  { recurrence := none, recurringEventId := some "master-event-id" }

/-- A concrete audit entry dated February 2026. -/
def wEntryFeb : AuditEntry :=
  { operation := "create", service := "calendar", title := "Test Event",
    googleId := "abc123", changes := none,
    timestamp := "2026-02-13T14:30:00Z", source := "mcp" }

/-- A concrete audit entry dated March 2026. -/
def wEntryMar : AuditEntry :=
  { operation := "update", service := "tasks", title := "March Entry",
    googleId := "def456", changes := none,
    timestamp := "2026-03-01T10:00:00Z", source := "mcp" }

/-- A calendar API behaviour where every endpoint succeeds. -/
def wCalApiOk : CalendarApi :=
  { get := .ok { id := some "evt1", summary := some "Mock Event",
                 endTimeMs := some 1769990000000, recurrence := none,
                 recurringEventId := none },
    insert := .ok { id := some "evt_new", summary := some "Created",
                    endTimeMs := none, recurrence := none,
                    recurringEventId := none },
    patch := .ok { id := some "evt1", summary := some "Patched",
                   endTimeMs := none, recurrence := none,
                   recurringEventId := none },
    delete := .ok () }

/-- A calendar API behaviour where the insert endpoint raises a 500. -/
def wCalApiInsertFail : CalendarApi :=
  { wCalApiOk with insert := .error { status := 500, message := "Internal error" } }

/-- Concrete `createEvent` parameters targeting an unprotected calendar. -/
def wCreateParams : CreateEventParams :=
  { calendarId := "primary", title := "Team Standup", date := "2026-02-14",
    startTime := "10:00", endTime := "10:30" }

/-- A Gmail API behaviour where every endpoint succeeds. -/
def wGmailApiOk : GmailApi :=
  { modify := .ok { id := some "msg_mock_1", threadId := some "thread_mock_1",
                    labelIds := ["INBOX"] },
    send := .ok { id := some "msg_new", threadId := some "thread_new",
                  labelIds := ["SENT"] },
    labelCreate := .ok { id := some "Label_1", name := some "DPA/Test" } }

/-- Concrete `sendMessage` parameters. -/
def wSendParams : SendMessageParams :=
  { toAddr := "user@example.com", subject := "Hello", body := "Hi there",
    inReplyTo := none, threadId := none }

/-- A directory whose February 2026 file holds unparseable bytes. -/
def corruptFs : AuditFs :=
  [(auditFileName (monthOf wEntryFeb), .corrupt "not valid json")]

/-- Concrete `createEvent` parameters targeting the protected calendar. -/
def wProtectedCreateParams : CreateEventParams :=
  { calendarId := "holidays@group.v.calendar.google.com", title := "Blocked",
    date := "2026-02-14", startTime := "10:00", endTime := "10:30" }

/-! ## Helper lemmas -/

/-- The date stored after `ensureDateCurrent` is always the current date. -/
theorem ensureDateCurrent_date (today : String) (s : GuardState) :
    (ensureDateCurrent today s).writeCountDate = today := by
  unfold ensureDateCurrent
  try dsimp only
  split
  · rfl
  · next h => simpa using h

/-- `ensureDateCurrent` is the identity when the stored date is current. -/
theorem ensureDateCurrent_of_current (today : String) (s : GuardState)
    (h : s.writeCountDate = today) : ensureDateCurrent today s = s := by
  unfold ensureDateCurrent
  simp [h]

/-- `ensureDateCurrent` is idempotent. -/
theorem ensureDateCurrent_idem (today : String) (s : GuardState) :
    ensureDateCurrent today (ensureDateCurrent today s) = ensureDateCurrent today s :=
  ensureDateCurrent_of_current _ _ (ensureDateCurrent_date _ _)

theorem checkWriteLimit_fst (cfg : GuardrailConfig) (today : String)
    (cost : Nat) (s : GuardState) :
    (checkWriteLimit cfg today cost s).1 = ensureDateCurrent today s := by
  unfold checkWriteLimit
  try dsimp only
  split <;> rfl

theorem checkGmailSendLimit_fst (cfg : GuardrailConfig) (today : String)
    (cost : Nat) (s : GuardState) :
    (checkGmailSendLimit cfg today cost s).1 = ensureDateCurrent today s := by
  unfold checkGmailSendLimit
  try dsimp only
  split <;> rfl

theorem checkGmailModifyLimit_fst (cfg : GuardrailConfig) (today : String)
    (cost : Nat) (s : GuardState) :
    (checkGmailModifyLimit cfg today cost s).1 = ensureDateCurrent today s := by
  unfold checkGmailModifyLimit
  try dsimp only
  split <;> rfl

theorem checkProtectedCalendar_fst (cfg : GuardrailConfig) (calendarId : String)
    (s : GuardState) : (checkProtectedCalendar cfg calendarId s).1 = s := by
  unfold checkProtectedCalendar
  try dsimp only
  split <;> rfl

theorem checkProtectedTaskList_fst (cfg : GuardrailConfig) (taskListId : String)
    (s : GuardState) : (checkProtectedTaskList cfg taskListId s).1 = s := by
  unfold checkProtectedTaskList
  try dsimp only
  split <;> rfl

theorem checkPastEventProtection_fst (cfg : GuardrailConfig) (nowMs eventEndMs : Int)
    (s : GuardState) : (checkPastEventProtection cfg nowMs eventEndMs s).1 = s := by
  unfold checkPastEventProtection
  try dsimp only
  split <;> rfl

theorem checkRecurringSeriesDelete_fst (cfg : GuardrailConfig) (event : EventRef)
    (s : GuardState) : (checkRecurringSeriesDelete cfg event s).1 = s := by
  unfold checkRecurringSeriesDelete
  split
  · split <;> rfl
  · rfl

theorem checkAttachmentSize_fst (cfg : GuardrailConfig) (sizeBytes : Nat)
    (s : GuardState) : (checkAttachmentSize cfg sizeBytes s).1 = s := by
  unfold checkAttachmentSize
  try dsimp only
  split <;> rfl

theorem checkAttachmentType_fst (cfg : GuardrailConfig) (mimeType : String)
    (s : GuardState) : (checkAttachmentType cfg mimeType s).1 = s := by
  unfold checkAttachmentType
  try dsimp only
  split <;> rfl

/-- Writing then looking the same file up yields the written content. -/
theorem fsLookup_fsWrite_self (fs : AuditFs) (n : String) (c : FileContent) :
    fsLookup (fsWrite fs n c) n = some c := by
  induction fs with
  | nil => simp [fsWrite, fsLookup]
  | cons kv rest ih =>
    obtain ⟨k, v⟩ := kv
    by_cases h : k = n
    · simp [fsWrite, fsLookup, h]
    · simp [fsWrite, fsLookup, h, ih]

/-- Writing one file leaves every other file untouched. -/
theorem fsLookup_fsWrite_ne (fs : AuditFs) (n n' : String) (c : FileContent)
    (h : n' ≠ n) : fsLookup (fsWrite fs n c) n' = fsLookup fs n' := by
  induction fs with
  | nil => simp [fsWrite, fsLookup, Ne.symm h]
  | cons kv rest ih =>
    obtain ⟨k, v⟩ := kv
    by_cases hk : k = n
    · subst hk
      simp [fsWrite, fsLookup, Ne.symm h]
    · simp [fsWrite, fsLookup, hk, ih]

/-- A key of the directory after a write is the written name or an existing
key. -/
theorem fsWrite_keys_subset (fs : AuditFs) (n : String) (c : FileContent) :
    ∀ x ∈ (fsWrite fs n c).map Prod.fst, x = n ∨ x ∈ fs.map Prod.fst := by
  induction fs with
  | nil => simp [fsWrite]
  | cons kv rest ih =>
    obtain ⟨k, v⟩ := kv
    by_cases hk : k = n
    · subst hk
      simp [fsWrite]
    · intro x hx
      simp only [fsWrite, if_neg hk, List.map_cons, List.mem_cons] at hx
      rcases hx with rfl | hx
      · simp
      · rcases ih x hx with h | h
        · exact Or.inl h
        · exact Or.inr (by simp [h])

/-- The written name is a key of the directory after the write. -/
theorem fsWrite_key_mem (fs : AuditFs) (n : String) (c : FileContent) :
    n ∈ (fsWrite fs n c).map Prod.fst := by
  induction fs with
  | nil => simp [fsWrite]
  | cons kv rest ih =>
    obtain ⟨k, v⟩ := kv
    by_cases hk : k = n
    · simp [fsWrite, hk]
    · simp only [fsWrite, if_neg hk, List.map_cons, List.mem_cons]
      exact Or.inr ih

/-- A write preserves distinctness of the file names. -/
theorem fsWrite_keys_nodup (fs : AuditFs) (n : String) (c : FileContent)
    (h : (fs.map Prod.fst).Nodup) : ((fsWrite fs n c).map Prod.fst).Nodup := by
  induction fs with
  | nil => simp [fsWrite]
  | cons kv rest ih =>
    obtain ⟨k, v⟩ := kv
    simp only [List.map_cons, List.nodup_cons] at h
    by_cases hk : k = n
    · subst hk
      simpa [fsWrite] using h
    · simp only [fsWrite, if_neg hk, List.map_cons, List.nodup_cons]
      refine ⟨?_, ih h.2⟩
      intro hmem
      rcases fsWrite_keys_subset rest n c k hmem with rfl | hmem'
      · exact hk rfl
      · exact h.1 hmem'

/-- A file name is present exactly when looking it up succeeds. -/
theorem fsLookup_isSome_iff_mem (fs : AuditFs) (n : String) :
    (fsLookup fs n).isSome ↔ n ∈ fs.map Prod.fst := by
  induction fs with
  | nil => simp [fsLookup]
  | cons kv rest ih =>
    obtain ⟨k, v⟩ := kv
    by_cases hk : k = n
    · simp [fsLookup, hk]
    · simp [fsLookup, hk, ih, Ne.symm hk]

/-- Distinct months give distinct monthly file names. -/
theorem auditFileName_injective : Function.Injective auditFileName := by
  intro a b h
  unfold auditFileName at h
  have hd := congrArg String.data h
  simp only [String.data_append] at hd
  exact String.ext (List.append_cancel_left (List.append_cancel_right hd))

/-- The blocking condition of `checkPastEventProtection`, freed of the real
division: the check throws exactly when the elapsed milliseconds reach
`pastEventProtectionDays` whole days. -/
theorem checkPastEventProtection_isSome_iff (cfg : GuardrailConfig)
    (nowMs eventEndMs : Int) (s : GuardState) :
    (checkPastEventProtection cfg nowMs eventEndMs s).2.isSome ↔
      nowMs - eventEndMs ≥ (cfg.pastEventProtectionDays : Int) * 86400000 := by
  have hcond : ((nowMs - eventEndMs : Int) : Rat) / (1000 * 60 * 60 * 24) ≥
        (cfg.pastEventProtectionDays : Rat) ↔
      nowMs - eventEndMs ≥ (cfg.pastEventProtectionDays : Int) * 86400000 := by
    rw [ge_iff_le, le_div_iff₀ (by norm_num), ge_iff_le]
    norm_num
    exact ⟨fun h => by exact_mod_cast h, fun h => by exact_mod_cast h⟩
  unfold checkPastEventProtection
  dsimp only
  by_cases hb : ((nowMs - eventEndMs : Int) : Rat) / (1000 * 60 * 60 * 24) ≥
      (cfg.pastEventProtectionDays : Rat)
  · rw [if_pos hb]
    simpa using hcond.mp hb
  · rw [if_neg hb]
    simp only [Option.isSome_none, Bool.false_eq_true, false_iff]
    exact fun hge => hb (hcond.mpr hge)

/-! ## Claim theorems -/

/-- C2: on the current UTC day, `checkWriteLimit(cost)` fails iff
`writeCount + cost > dailyWriteLimit`, every failure carries
`DAILY_LIMIT_REACHED`, and when `writeCount + cost` equals the limit exactly
the check succeeds with no effect at all on the state (reaching the limit
exactly is the last allowed operation). -/
theorem checkWriteLimit_boundary_included (cfg : GuardrailConfig)
    (today : String) (cost : Nat) (s : GuardState)
    (h : s.writeCountDate = today) :
    ((checkWriteLimit cfg today cost s).2.isSome ↔
        s.writeCount + cost > cfg.dailyWriteLimit) ∧
    (∀ e, (checkWriteLimit cfg today cost s).2 = some e →
        e.code = ErrorCode.DAILY_LIMIT_REACHED) ∧
    (s.writeCount + cost = cfg.dailyWriteLimit →
        checkWriteLimit cfg today cost s = (s, none)) := by
  have hs : ensureDateCurrent today s = s := ensureDateCurrent_of_current today s h
  by_cases hc : s.writeCount + cost > cfg.dailyWriteLimit
  · refine ⟨by simp [checkWriteLimit, hs, hc], ?_, ?_⟩
    · intro e he
      have hred : (checkWriteLimit cfg today cost s).2 =
          some ⟨ErrorCode.DAILY_LIMIT_REACHED, "Daily write limit reached"⟩ := by
        simp [checkWriteLimit, hs, hc]
      rw [hred] at he
      cases he
      rfl
    · intro heq
      exact absurd hc (by omega)
  · refine ⟨by simp [checkWriteLimit, hs, hc], ?_, ?_⟩
    · intro e he
      have hred : (checkWriteLimit cfg today cost s).2 = none := by
        simp [checkWriteLimit, hs, hc]
      rw [hred] at he
      cases he
    · intro _
      simp [checkWriteLimit, hs, hc]

/-- Witness for C2 at a concrete input: with limit 2 and one write used,
cost 2 is rejected and cost 1 (reaching the limit exactly) is allowed with
no effect. -/
theorem checkWriteLimit_boundary_included_witness :
    (checkWriteLimit wCfg "2026-02-13" 2 wState).2.isSome = true ∧
    checkWriteLimit wCfg "2026-02-13" 1 wState = (wState, none) := by
  refine ⟨?_, ?_⟩
  · exact (checkWriteLimit_boundary_included wCfg "2026-02-13" 2 wState rfl).1.mpr
      (by decide)
  · exact (checkWriteLimit_boundary_included wCfg "2026-02-13" 1 wState rfl).2.2
      (by decide)

/-- C4: `checkPastEventProtection` blocks iff the elapsed time between now
and the end timestamp is at least `pastEventProtectionDays` days, boundary
inclusive: exactly at the threshold is blocked, one day under it is allowed,
one day over it is blocked, and a future end time is always allowed; every
failure carries `PAST_EVENT_PROTECTED`. -/
theorem pastEventProtection_boundary (cfg : GuardrailConfig)
    (nowMs eventEndMs : Int) (s : GuardState) :
    ((checkPastEventProtection cfg nowMs eventEndMs s).2.isSome ↔
        nowMs - eventEndMs ≥ (cfg.pastEventProtectionDays : Int) * 86400000) ∧
    (∀ e, (checkPastEventProtection cfg nowMs eventEndMs s).2 = some e →
        e.code = ErrorCode.PAST_EVENT_PROTECTED) ∧
    (checkPastEventProtection cfg nowMs
        (nowMs - (cfg.pastEventProtectionDays : Int) * 86400000) s).2.isSome ∧
    (checkPastEventProtection cfg nowMs
        (nowMs - ((cfg.pastEventProtectionDays : Int) - 1) * 86400000) s).2 = none ∧
    (checkPastEventProtection cfg nowMs
        (nowMs - ((cfg.pastEventProtectionDays : Int) + 1) * 86400000) s).2.isSome ∧
    (eventEndMs > nowMs →
        (checkPastEventProtection cfg nowMs eventEndMs s).2 = none) := by
  refine ⟨checkPastEventProtection_isSome_iff cfg nowMs eventEndMs s, ?_, ?_, ?_, ?_, ?_⟩
  · intro e he
    unfold checkPastEventProtection at he
    dsimp only at he
    split at he
    · cases he
      rfl
    · cases he
  · exact (checkPastEventProtection_isSome_iff cfg nowMs _ s).mpr (by omega)
  · refine Option.not_isSome_iff_eq_none.mp ?_
    intro hsome
    have := (checkPastEventProtection_isSome_iff cfg nowMs _ s).mp hsome
    omega
  · exact (checkPastEventProtection_isSome_iff cfg nowMs _ s).mpr (by omega)
  · intro hfut
    refine Option.not_isSome_iff_eq_none.mp ?_
    intro hsome
    have := (checkPastEventProtection_isSome_iff cfg nowMs eventEndMs s).mp hsome
    have hnn : (0 : Int) ≤ (cfg.pastEventProtectionDays : Int) * 86400000 :=
      mul_nonneg (Int.natCast_nonneg _) (by norm_num)
    omega

/-- Witness for C4 at a concrete input: with 7 protection days, an event
ending exactly 7 days ago is blocked and a future end time is allowed. -/
theorem pastEventProtection_boundary_witness :
    (checkPastEventProtection wCfg 1770000000000 1769395200000 wState).2.isSome = true ∧
    (checkPastEventProtection wCfg 1770000000000 1770000000001 wState).2 = none := by
  refine ⟨?_, ?_⟩
  · exact (pastEventProtection_boundary wCfg 1770000000000 1769395200000 wState).1.mpr
      (by decide)
  · exact (pastEventProtection_boundary wCfg 1770000000000 1770000000001 wState).2.2.2.2.2
      (by decide)

/-- C5: `checkRecurringSeriesDelete` throws iff the event is a series master
(at least one recurrence rule and no parent-series reference, in the sense
of the source's truthiness test) and `allowRecurringSeriesDelete` is false;
a single instance (parent reference present) or a non-recurring event never
triggers it, regardless of the policy; every failure carries
`RECURRING_SERIES_BLOCKED`. -/
theorem recurringSeriesDelete_master_only (cfg : GuardrailConfig)
    (event : EventRef) (s : GuardState) :
    ((checkRecurringSeriesDelete cfg event s).2.isSome ↔
        isSeriesMaster event = true ∧ cfg.allowRecurringSeriesDelete = false) ∧
    (isSeriesMaster event = true ↔
        (∃ l, event.recurrence = some l ∧ l.length > 0) ∧
          truthyStr event.recurringEventId = false) ∧
    (∀ e, (checkRecurringSeriesDelete cfg event s).2 = some e →
        e.code = ErrorCode.RECURRING_SERIES_BLOCKED) ∧
    (truthyStr event.recurringEventId = true →
        (checkRecurringSeriesDelete cfg event s).2 = none) ∧
    ((event.recurrence = none ∨ event.recurrence = some []) →
        (checkRecurringSeriesDelete cfg event s).2 = none) := by
  have hmaster : isSeriesMaster event = true ↔
      (∃ l, event.recurrence = some l ∧ l.length > 0) ∧
        truthyStr event.recurringEventId = false := by
    unfold isSeriesMaster
    cases hrec : event.recurrence with
    | none => simp
    | some l =>
      cases htr : truthyStr event.recurringEventId <;> simp [htr]
  refine ⟨?_, hmaster, ?_, ?_, ?_⟩
  · unfold checkRecurringSeriesDelete
    cases hallow : cfg.allowRecurringSeriesDelete <;>
      cases hm : isSeriesMaster event <;> simp [hallow, hm]
  · intro e he
    unfold checkRecurringSeriesDelete at he
    split at he
    · split at he
      · cases he
        rfl
      · cases he
    · cases he
  · intro htr
    unfold checkRecurringSeriesDelete
    have hm : isSeriesMaster event = false := by
      unfold isSeriesMaster
      simp [htr]
    split
    · simp [hm]
    · rfl
  · intro hrec
    have hm : isSeriesMaster event = false := by
      unfold isSeriesMaster
      rcases hrec with h | h <;> simp [h]
    unfold checkRecurringSeriesDelete
    split
    · simp [hm]
    · rfl

/-- Witness for C5 at a concrete input: with the policy disallowing series
deletion, a series master is blocked and a single instance is allowed. -/
theorem recurringSeriesDelete_master_only_witness :
    (checkRecurringSeriesDelete wCfg wSeriesMaster wState).2.isSome = true ∧
    (checkRecurringSeriesDelete wCfg wSeriesInstance wState).2 = none := by
  refine ⟨?_, ?_⟩
  · exact (recurringSeriesDelete_master_only wCfg wSeriesMaster wState).1.mpr
      (by constructor <;> decide)
  · exact (recurringSeriesDelete_master_only wCfg wSeriesInstance wState).2.2.2.1
      (by decide)

/-- C9: `apiError(status, message)` maps status 401 to `AUTH_EXPIRED`, 404
to `NOT_FOUND`, and every other status to `API_ERROR`, always preserving the
message and the `error: true` flag. -/
theorem apiError_status_translation (status : Nat) (message : String) :
    ((apiError status message).code = ErrorCode.AUTH_EXPIRED ↔ status = 401) ∧
    ((apiError status message).code = ErrorCode.NOT_FOUND ↔ status = 404) ∧
    (status ≠ 401 → status ≠ 404 →
        (apiError status message).code = ErrorCode.API_ERROR) ∧
    (apiError status message).message = message ∧
    (apiError status message).error = true := by
  unfold apiError
  by_cases h1 : status = 401
  · subst h1
    simp
  · by_cases h4 : status = 404
    · subst h4
      simp
    · simp [h1, h4]

/-- Witness for C9 at concrete statuses, matching the unit tests of
`errors.test.ts`. -/
theorem apiError_status_translation_witness :
    (apiError 401 "Token revoked").code = ErrorCode.AUTH_EXPIRED ∧
    (apiError 404 "Event not found").code = ErrorCode.NOT_FOUND ∧
    (apiError 429 "Rate limited").code = ErrorCode.API_ERROR ∧
    (apiError 503 "Service unavailable").message = "Service unavailable" := by
  refine ⟨(apiError_status_translation 401 "Token revoked").1.mpr rfl,
          (apiError_status_translation 404 "Event not found").2.1.mpr rfl,
          (apiError_status_translation 429 "Rate limited").2.2.1 (by decide) (by decide),
          (apiError_status_translation 503 "Service unavailable").2.2.2.1⟩

/-- C10: `requireApprovalForSend` is dead configuration for the admission
path: two `sendMessage` runs that differ only in that policy field produce
the identical outcome (result, state, remote calls, audit entries) on every
input, every remote behaviour, every clock and every starting state. -/
theorem sendMessage_requireApprovalForSend_dead (params : SendMessageParams)
    (api : GmailApi) (base : GuardrailConfig) (g : GmailGuardrailConfig)
    (clock : Clock) (auditOk : Bool) (s : GuardState) (b1 b2 : Bool) :
    sendMessage params api
        { base with gmail := some { g with requireApprovalForSend := b1 } }
        clock auditOk s
      = sendMessage params api
        { base with gmail := some { g with requireApprovalForSend := b2 } }
        clock auditOk s := rfl

/-- C3 counterexample: `checkProtectedCalendar` does not consult the clock at
all (its embedding takes no date argument, mirroring the source, which never
calls `ensureDateCurrent`); invoked on a state whose stored date is stale it
returns the state untouched, with all three counters still nonzero. -/
theorem protectedCalendar_skips_rollover :
    staleState.writeCountDate ≠ "2026-02-13" ∧
    checkProtectedCalendar wCfg "primary" staleState = (staleState, none) ∧
    staleState.writeCount = 3 ∧ staleState.gmailSendCount = 2 ∧
    staleState.gmailModifyCount = 1 := by
  refine ⟨by decide, by decide, rfl, rfl, rfl⟩

/-- C3 (amended): only the three limit checks and the three counter
increments re-evaluate the stored date, resetting all three counters when it
differs from today; `checkProtectedCalendar`, `checkProtectedTaskList`,
`checkPastEventProtection`, `checkRecurringSeriesDelete` and the attachment
checks return the state untouched. -/
theorem date_rollover_scope (cfg : GuardrailConfig) (today : String)
    (cost : Nat) (s : GuardState) (calendarId taskListId mimeType : String)
    (sizeBytes : Nat) (nowMs endMs : Int) (event : EventRef) :
    (s.writeCountDate ≠ today →
        ensureDateCurrent today s =
          { writeCount := 0, gmailSendCount := 0, gmailModifyCount := 0,
            writeCountDate := today }) ∧
    (checkWriteLimit cfg today cost s).1 = ensureDateCurrent today s ∧
    (checkGmailSendLimit cfg today cost s).1 = ensureDateCurrent today s ∧
    (checkGmailModifyLimit cfg today cost s).1 = ensureDateCurrent today s ∧
    incrementWriteCounter today cost s =
      { ensureDateCurrent today s with
        writeCount := (ensureDateCurrent today s).writeCount + cost } ∧
    incrementGmailSendCounter today cost s =
      { ensureDateCurrent today s with
        gmailSendCount := (ensureDateCurrent today s).gmailSendCount + cost } ∧
    incrementGmailModifyCounter today cost s =
      { ensureDateCurrent today s with
        gmailModifyCount := (ensureDateCurrent today s).gmailModifyCount + cost } ∧
    (checkProtectedCalendar cfg calendarId s).1 = s ∧
    (checkProtectedTaskList cfg taskListId s).1 = s ∧
    (checkPastEventProtection cfg nowMs endMs s).1 = s ∧
    (checkRecurringSeriesDelete cfg event s).1 = s ∧
    (checkAttachmentSize cfg sizeBytes s).1 = s ∧
    (checkAttachmentType cfg mimeType s).1 = s := by
  refine ⟨?_, checkWriteLimit_fst cfg today cost s,
      checkGmailSendLimit_fst cfg today cost s,
      checkGmailModifyLimit_fst cfg today cost s, rfl, rfl, rfl,
      checkProtectedCalendar_fst cfg calendarId s,
      checkProtectedTaskList_fst cfg taskListId s,
      checkPastEventProtection_fst cfg nowMs endMs s,
      checkRecurringSeriesDelete_fst cfg event s,
      checkAttachmentSize_fst cfg sizeBytes s,
      checkAttachmentType_fst cfg mimeType s⟩
  intro h
  unfold ensureDateCurrent
  simp [h]

/-- Witness for the amended C3 at a concrete input: a stale state is reset
when the rollover does run. -/
theorem date_rollover_scope_witness :
    ensureDateCurrent "2026-02-13" staleState =
      { writeCount := 0, gmailSendCount := 0, gmailModifyCount := 0,
        writeCountDate := "2026-02-13" } := by
  exact (date_rollover_scope wCfg "2026-02-13" 1 staleState "primary" "@default"
      "application/pdf" 100 0 0 wSeriesInstance).1 (by decide)

/-- Unfolding lemma: one logged entry rewrites the entry's monthly file from
its current parsed entries. -/
theorem fileAuditLog_eq (entry : AuditEntry) (fs : AuditFs) :
    fileAuditLog entry fs =
      fsWrite fs (auditFileName (monthOf entry))
        (.parsed (monthOf entry)
          (priorEntriesAt fs (monthOf entry) ++ [entry])) := rfl

/-- Logging an entry leaves every other month's file untouched. -/
theorem fileAuditLog_lookup_ne (entry : AuditEntry) (fs : AuditFs) (m : String)
    (h : monthOf entry ≠ m) :
    fsLookup (fileAuditLog entry fs) (auditFileName m) =
      fsLookup fs (auditFileName m) := by
  rw [fileAuditLog_eq]
  exact fsLookup_fsWrite_ne _ _ _ _
    (fun heq => h (auditFileName_injective heq).symm)

theorem logAllEntries_nil (fs : AuditFs) : logAllEntries [] fs = fs := rfl

theorem logAllEntries_cons (e : AuditEntry) (rest : List AuditEntry)
    (fs : AuditFs) :
    logAllEntries (e :: rest) fs = logAllEntries rest (fileAuditLog e fs) := rfl

/-- What one month's file contains after a sequence of logged entries: the
entries of that month in arrival order, appended to whatever parsed entries
the month already had; months with no new entry are untouched. -/
theorem lookup_logAllEntries (entries : List AuditEntry) (fs : AuditFs)
    (m : String) :
    fsLookup (logAllEntries entries fs) (auditFileName m) =
      if entries.filter (fun e => monthOf e = m) = [] then
        fsLookup fs (auditFileName m)
      else
        some (.parsed m
          (priorEntriesAt fs m ++ entries.filter (fun e => monthOf e = m))) := by
  induction entries generalizing fs with
  | nil => simp [logAllEntries]
  | cons e rest ih =>
    rw [logAllEntries_cons, ih]
    by_cases hm : monthOf e = m
    · subst hm
      have hlook : fsLookup (fileAuditLog e fs) (auditFileName (monthOf e)) =
          some (.parsed (monthOf e) (priorEntriesAt fs (monthOf e) ++ [e])) := by
        rw [fileAuditLog_eq]
        exact fsLookup_fsWrite_self _ _ _
      have hprior : priorEntriesAt (fileAuditLog e fs) (monthOf e) =
          priorEntriesAt fs (monthOf e) ++ [e] := by
        unfold priorEntriesAt
        rw [hlook]
        rfl
      have hfil : (e :: rest).filter (fun x => monthOf x = monthOf e) =
          e :: rest.filter (fun x => monthOf x = monthOf e) := by
        simp [List.filter]
      rw [hfil]
      by_cases hrest : rest.filter (fun x => monthOf x = monthOf e) = []
      · rw [if_pos hrest, hlook]
        simp [hrest]
      · rw [if_neg hrest, hprior]
        have hcons : (e :: rest.filter (fun x => monthOf x = monthOf e)) ≠ [] := by
          simp
        rw [if_neg hcons]
        simp
    · have hlook : fsLookup (fileAuditLog e fs) (auditFileName m) =
          fsLookup fs (auditFileName m) := fileAuditLog_lookup_ne e fs m hm
      have hprior : priorEntriesAt (fileAuditLog e fs) m = priorEntriesAt fs m := by
        unfold priorEntriesAt
        rw [hlook]
      have hfil : (e :: rest).filter (fun x => monthOf x = m) =
          rest.filter (fun x => monthOf x = m) := by
        simp [List.filter, hm]
      rw [hfil, hlook, hprior]

/-- Logging entries of a single month into a directory holding only that
month's file appends them in arrival order. -/
theorem logAllEntries_single_month (m : String) (l : List AuditEntry) :
    ∀ acc : List AuditEntry, (∀ e ∈ l, monthOf e = m) →
      logAllEntries l [(auditFileName m, .parsed m acc)] =
        [(auditFileName m, .parsed m (acc ++ l))] := by
  induction l with
  | nil =>
    intro acc _
    simp [logAllEntries]
  | cons e rest ih =>
    intro acc h
    have hm : monthOf e = m := h e (List.mem_cons_self e rest)
    have hstep : fileAuditLog e [(auditFileName m, .parsed m acc)] =
        [(auditFileName m, .parsed m (acc ++ [e]))] := by
      rw [fileAuditLog_eq, hm]
      have hl : priorEntriesAt [(auditFileName m, FileContent.parsed m acc)] m = acc := by
        unfold priorEntriesAt fsLookup
        simp
      rw [hl]
      unfold fsWrite
      simp
    rw [logAllEntries_cons, hstep,
      ih (acc ++ [e]) (fun x hx => h x (List.mem_cons_of_mem e hx))]
    simp

/-- Every file name present after a sequence of logs is an existing name or
the monthly name of one of the logged entries. -/
theorem logAllEntries_keys_subset (entries : List AuditEntry) (fs : AuditFs) :
    ∀ x ∈ (logAllEntries entries fs).map Prod.fst,
      x ∈ fs.map Prod.fst ∨ ∃ e ∈ entries, x = auditFileName (monthOf e) := by
  induction entries generalizing fs with
  | nil =>
    intro x hx
    exact Or.inl hx
  | cons e rest ih =>
    intro x hx
    rw [logAllEntries_cons] at hx
    have hih := ih (fileAuditLog e fs) x hx
    rcases hih with hmem | hex
    · rw [fileAuditLog_eq] at hmem
      have hsub := fsWrite_keys_subset fs
        (auditFileName (monthOf e))
        (FileContent.parsed (monthOf e) (priorEntriesAt fs (monthOf e) ++ [e])) x hmem
      rcases hsub with heq | hmem2
      · exact Or.inr ⟨e, List.mem_cons_self e rest, heq⟩
      · exact Or.inl hmem2
    · obtain ⟨e2, he2, hxeq⟩ := hex
      exact Or.inr ⟨e2, List.mem_cons_of_mem e he2, hxeq⟩

/-- Logging preserves distinctness of the file names. -/
theorem logAllEntries_keys_nodup (entries : List AuditEntry) (fs : AuditFs)
    (h : (fs.map Prod.fst).Nodup) :
    ((logAllEntries entries fs).map Prod.fst).Nodup := by
  induction entries generalizing fs with
  | nil => exact h
  | cons e rest ih =>
    rw [logAllEntries_cons]
    refine ih (fileAuditLog e fs) ?_
    rw [fileAuditLog_eq]
    exact fsWrite_keys_nodup _ _ _ h

/-- A duplicate-free list contained in a pair and containing both elements
has exactly two elements. -/
theorem length_eq_two_of_nodup_pair {l : List String} {a b : String}
    (hnd : l.Nodup) (ha : a ∈ l) (hb : b ∈ l) (hab : a ≠ b)
    (hsub : ∀ x ∈ l, x = a ∨ x = b) : l.length = 2 := by
  have hfin : l.toFinset = {a, b} := by
    ext x
    simp only [List.mem_toFinset, Finset.mem_insert, Finset.mem_singleton]
    refine ⟨hsub x, ?_⟩
    rintro (rfl | rfl) <;> assumption
  have hcard := List.toFinset_card_of_nodup hnd
  rw [hfin, Finset.card_insert_of_not_mem (by simp [hab]),
    Finset.card_singleton] at hcard
  omega

/-- C6: an audit-write failure never fails the triggering operation.  The
logger's `log` resolves in all cases observable to the caller and is a
file-free no-op when no directory is configured; and for every mutating
handler, whether the `audit.log` promise resolves or rejects changes nothing
the caller or the remote side observes — result, guardrail state and remote
calls are identical. -/
theorem audit_failure_suppressed :
    (∀ dir entry fs, (auditLoggerLog dir entry fs).2 = true) ∧
    (∀ entry fs, (auditLoggerLog none entry fs).1 = fs) ∧
    (∀ params api cfg clock a s0,
        (createEvent params api cfg clock a s0).observable
          = (createEvent params api cfg clock true s0).observable) ∧
    (∀ params api cfg clock a s0,
        (updateEvent params api cfg clock a s0).observable
          = (updateEvent params api cfg clock true s0).observable) ∧
    (∀ params api cfg clock a s0,
        (deleteEvent params api cfg clock a s0).observable
          = (deleteEvent params api cfg clock true s0).observable) ∧
    (∀ params api cfg clock a s0,
        (createTask params api cfg clock a s0).observable
          = (createTask params api cfg clock true s0).observable) ∧
    (∀ params api cfg clock a s0,
        (updateTask params api cfg clock a s0).observable
          = (updateTask params api cfg clock true s0).observable) ∧
    (∀ params api cfg clock a s0,
        (deleteTask params api cfg clock a s0).observable
          = (deleteTask params api cfg clock true s0).observable) ∧
    (∀ params api cfg clock a s0,
        (completeTask params api cfg clock a s0).observable
          = (completeTask params api cfg clock true s0).observable) ∧
    (∀ params api cfg clock a s0,
        (moveTask params api cfg clock a s0).observable
          = (moveTask params api cfg clock true s0).observable) ∧
    (∀ params api cfg clock a s0,
        (modifyMessage params api cfg clock a s0).observable
          = (modifyMessage params api cfg clock true s0).observable) ∧
    (∀ params api cfg clock a s0,
        (createLabel params api cfg clock a s0).observable
          = (createLabel params api cfg clock true s0).observable) ∧
    (∀ params api cfg clock a s0,
        (sendMessage params api cfg clock a s0).observable
          = (sendMessage params api cfg clock true s0).observable) := by
  refine ⟨fun dir entry fs => by cases dir <;> rfl, fun entry fs => rfl,
      ?_, ?_, ?_, ?_, ?_, ?_, ?_, ?_, ?_, ?_, ?_⟩
  · intro params api cfg clock a s0
    unfold createEvent Outcome.observable
    try dsimp only
    repeat' split
    all_goals rfl
  · intro params api cfg clock a s0
    unfold updateEvent Outcome.observable
    try dsimp only
    repeat' split
    all_goals rfl
  · intro params api cfg clock a s0
    unfold deleteEvent Outcome.observable
    try dsimp only
    repeat' split
    all_goals rfl
  · intro params api cfg clock a s0
    unfold createTask Outcome.observable
    try dsimp only
    repeat' split
    all_goals rfl
  · intro params api cfg clock a s0
    unfold updateTask Outcome.observable
    try dsimp only
    repeat' split
    all_goals rfl
  · intro params api cfg clock a s0
    unfold deleteTask Outcome.observable
    try dsimp only
    repeat' split
    all_goals rfl
  · intro params api cfg clock a s0
    unfold completeTask Outcome.observable
    try dsimp only
    repeat' split
    all_goals rfl
  · intro params api cfg clock a s0
    unfold moveTask Outcome.observable
    try dsimp only
    repeat' split
    all_goals rfl
  · intro params api cfg clock a s0
    unfold modifyMessage Outcome.observable
    try dsimp only
    repeat' split
    all_goals rfl
  · intro params api cfg clock a s0
    unfold createLabel Outcome.observable
    try dsimp only
    repeat' split
    all_goals rfl
  · intro params api cfg clock a s0
    unfold sendMessage Outcome.observable
    try dsimp only
    repeat' split
    all_goals rfl

/-- `apiError` never produces a policy-veto code. -/
theorem apiError_not_policy (status : Nat) (message : String) :
    policyCode (apiError status message).code = false := by
  unfold apiError
  by_cases h1 : status = 401
  · simp [h1, policyCode]
  · by_cases h4 : status = 404 <;> simp [h1, h4, policyCode]

/-- A thrown guardrail check satisfies the pipeline discipline: the rolled
state is returned untouched, no audit entry is written, and (given that only
read endpoints were called) no mutating remote call was made. -/
theorem pipeline_of_guardrail (clock : Clock) (s0 : GuardState)
    (auditOk : Bool) (e : GuardrailError) (calls : List String)
    (commit : GuardState → GuardState) (remoteOk : Prop)
    (hcalls : mutatingCalls calls = []) :
    pipelineDiscipline clock s0 auditOk
      (guardrailOutcome e (ensureDateCurrent clock.today s0) calls)
      commit remoteOk := by
  unfold pipelineDiscipline guardrailOutcome
  refine ⟨fun _ => ⟨rfl, rfl⟩, fun _ => hcalls, ?_⟩
  rintro ⟨pl, hpl⟩
  simp at hpl

/-- A raised remote transport failure satisfies the pipeline discipline: the
rolled state is returned untouched and no audit entry is written, and the
translated error never carries a policy code. -/
theorem pipeline_of_apiFailure (clock : Clock) (s0 : GuardState)
    (auditOk : Bool) (f : ApiFailure) (calls : List String)
    (commit : GuardState → GuardState) (remoteOk : Prop) :
    pipelineDiscipline clock s0 auditOk
      (apiFailureOutcome f (ensureDateCurrent clock.today s0) calls)
      commit remoteOk := by
  unfold pipelineDiscipline apiFailureOutcome
  refine ⟨fun _ => ⟨rfl, rfl⟩, ?_, ?_⟩
  · rintro ⟨er, her, hpc⟩
    simp only at her
    injection her with h1
    rw [← h1, apiError_not_policy] at hpc
    simp at hpc
  · rintro ⟨pl, hpl⟩
    simp at hpl

/-- A successful completion satisfies the pipeline discipline when the state
is the committed rolled state, the guarded remote calls succeeded, and the
audit sink received exactly one entry when it accepts writes. -/
theorem pipeline_of_success (clock : Clock) (s0 : GuardState)
    (auditOk : Bool) (o : Outcome) (commit : GuardState → GuardState)
    (remoteOk : Prop) (hres : ∃ pl, o.result = Except.ok pl)
    (hstate : o.state = commit (ensureDateCurrent clock.today s0))
    (hok : remoteOk) (haud : auditOk = true → o.auditEntries.length = 1) :
    pipelineDiscipline clock s0 auditOk o commit remoteOk := by
  unfold pipelineDiscipline
  obtain ⟨pl, hpl⟩ := hres
  refine ⟨?_, ?_, fun _ => ⟨hstate, hok, haud⟩⟩
  · rintro ⟨er, her⟩
    rw [hpl] at her
    simp at her
  · rintro ⟨er, her, _⟩
    rw [hpl] at her
    simp at her

/-- C7: corruption tolerance of the audit recorder.  If the month's backing
file exists but holds unparseable content (or is missing entirely), a
subsequent `log(entry)` treats the month as empty and rewrites a valid
`(month, entries)` file containing exactly the new entry, discarding the
prior content. -/
theorem auditLog_corruption_tolerance (entry : AuditEntry) (fs : AuditFs)
    (raw : String)
    (h : fsLookup fs (auditFileName (monthOf entry)) = some (.corrupt raw) ∨
         fsLookup fs (auditFileName (monthOf entry)) = none) :
    fsLookup (fileAuditLog entry fs) (auditFileName (monthOf entry))
      = some (.parsed (monthOf entry) [entry]) := by
  have hprior : priorEntriesAt fs (monthOf entry) = [] := by
    unfold priorEntriesAt
    rcases h with h | h <;> rw [h]
  rw [fileAuditLog_eq, hprior]
  simpa using fsLookup_fsWrite_self fs (auditFileName (monthOf entry)) _

/-- Witness for C7 at a concrete input: a February file pre-seeded with
unparseable bytes is replaced by a valid file holding exactly the one new
entry. -/
theorem auditLog_corruption_tolerance_witness :
    fsLookup (fileAuditLog wEntryFeb corruptFs) (auditFileName (monthOf wEntryFeb))
      = some (.parsed (monthOf wEntryFeb) [wEntryFeb]) :=
  auditLog_corruption_tolerance wEntryFeb corruptFs "not valid json"
    (Or.inl (by simp [corruptFs, fsLookup]))

/-- C8: audit round-trip and month partitioning.  Logging a nonempty batch
of same-month entries into a fresh directory yields exactly the one monthly
file holding those entries in arrival order; logging entries spanning two
months yields exactly two files, each holding only its own month's entries
in arrival order. -/
theorem audit_month_partitioning :
    (∀ (l : List AuditEntry) (m : String), l ≠ [] → (∀ e ∈ l, monthOf e = m) →
        logAllEntries l [] = [(auditFileName m, .parsed m l)]) ∧
    (∀ (l : List AuditEntry) (m1 m2 : String), m1 ≠ m2 →
        (∀ e ∈ l, monthOf e = m1 ∨ monthOf e = m2) →
        (∃ e ∈ l, monthOf e = m1) → (∃ e ∈ l, monthOf e = m2) →
        fsLookup (logAllEntries l []) (auditFileName m1)
            = some (.parsed m1 (l.filter (fun e => monthOf e = m1))) ∧
        fsLookup (logAllEntries l []) (auditFileName m2)
            = some (.parsed m2 (l.filter (fun e => monthOf e = m2))) ∧
        (logAllEntries l []).length = 2) := by
  have hlookup : ∀ (l : List AuditEntry) (m : String),
      l.filter (fun e => monthOf e = m) ≠ [] →
      fsLookup (logAllEntries l []) (auditFileName m)
        = some (.parsed m (l.filter (fun e => monthOf e = m))) := by
    intro l m hne
    have := lookup_logAllEntries l [] m
    rw [if_neg hne] at this
    simpa [priorEntriesAt, fsLookup] using this
  have hfilter_ne : ∀ (l : List AuditEntry) (m : String),
      (∃ e ∈ l, monthOf e = m) → l.filter (fun e => monthOf e = m) ≠ [] := by
    intro l m hex hcontra
    obtain ⟨e, he, hm⟩ := hex
    have hmem : e ∈ l.filter (fun x => monthOf x = m) :=
      List.mem_filter.mpr ⟨he, by simp [hm]⟩
    rw [hcontra] at hmem
    cases hmem
  constructor
  · intro l m hne h
    cases l with
    | nil => exact absurd rfl hne
    | cons e rest =>
      have hm : monthOf e = m := h e (List.mem_cons_self e rest)
      have h1 : fileAuditLog e [] = [(auditFileName m, .parsed m [e])] := by
        rw [fileAuditLog_eq, hm]
        have : priorEntriesAt [] m = [] := rfl
        rw [this]
        simp [fsWrite]
      rw [logAllEntries_cons, h1,
        logAllEntries_single_month m rest [e]
          (fun x hx => h x (List.mem_cons_of_mem e hx))]
      simp
  · intro l m1 m2 hne hsub hex1 hex2
    have hl1 := hlookup l m1 (hfilter_ne l m1 hex1)
    have hl2 := hlookup l m2 (hfilter_ne l m2 hex2)
    refine ⟨hl1, hl2, ?_⟩
    have hnodup := logAllEntries_keys_nodup l [] (by simp)
    have hmem1 : auditFileName m1 ∈ (logAllEntries l []).map Prod.fst := by
      rw [← fsLookup_isSome_iff_mem, hl1]
      rfl
    have hmem2 : auditFileName m2 ∈ (logAllEntries l []).map Prod.fst := by
      rw [← fsLookup_isSome_iff_mem, hl2]
      rfl
    have hsubkeys : ∀ x ∈ (logAllEntries l []).map Prod.fst,
        x = auditFileName m1 ∨ x = auditFileName m2 := by
      intro x hx
      have hks := logAllEntries_keys_subset l [] x hx
      rcases hks with hmem | hexk
      · cases hmem
      · obtain ⟨e, he, hxeq⟩ := hexk
        rcases hsub e he with hm | hm
        · exact Or.inl (by rw [hxeq, hm])
        · exact Or.inr (by rw [hxeq, hm])
    have hneqName : auditFileName m1 ≠ auditFileName m2 :=
      fun hcl => hne (auditFileName_injective hcl)
    have hlen := length_eq_two_of_nodup_pair hnodup hmem1 hmem2 hneqName hsubkeys
    rwa [List.length_map] at hlen

/-- C1: every mutating operation handler (calendar create/update/delete,
task create/update/delete/complete/move, gmail modify/send/create-label)
follows the strict check → guarded remote call → counter commit → audit
write sequence, short-circuiting on failure: a policy rejection returns the
structured error with no mutating remote call, no counter change beyond the
day rollover, and no audit write; a remote failure likewise commits no
counter and writes no audit entry; and the counters are committed exactly
when the handler returns the success payload, which can only happen once the
guarded remote calls have resolved successfully. -/
theorem guarded_pipeline_all :
    (∀ params api cfg clock auditOk s0,
        pipelineDiscipline clock s0 auditOk
          (createEvent params api cfg clock auditOk s0)
          (incrementWriteCounter clock.today 1)
          (∃ d, api.insert = Except.ok d)) ∧
    (∀ params api cfg clock auditOk s0,
        pipelineDiscipline clock s0 auditOk
          (updateEvent params api cfg clock auditOk s0)
          (incrementWriteCounter clock.today 1)
          ((∃ d, api.get = Except.ok d) ∧ (∃ d, api.patch = Except.ok d))) ∧
    (∀ params api cfg clock auditOk s0,
        pipelineDiscipline clock s0 auditOk
          (deleteEvent params api cfg clock auditOk s0)
          (incrementWriteCounter clock.today 1)
          ((∃ d, api.get = Except.ok d) ∧ (∃ u, api.delete = Except.ok u))) ∧
    (∀ params api cfg clock auditOk s0,
        pipelineDiscipline clock s0 auditOk
          (createTask params api cfg clock auditOk s0)
          (incrementWriteCounter clock.today 1)
          (∃ d, api.insert = Except.ok d)) ∧
    (∀ params api cfg clock auditOk s0,
        pipelineDiscipline clock s0 auditOk
          (updateTask params api cfg clock auditOk s0)
          (incrementWriteCounter clock.today 1)
          ((∃ d, api.get = Except.ok d) ∧ (∃ d, api.patch = Except.ok d))) ∧
    (∀ params api cfg clock auditOk s0,
        pipelineDiscipline clock s0 auditOk
          (deleteTask params api cfg clock auditOk s0)
          (incrementWriteCounter clock.today 1)
          ((∃ d, api.get = Except.ok d) ∧ (∃ u, api.delete = Except.ok u))) ∧
    (∀ params api cfg clock auditOk s0,
        pipelineDiscipline clock s0 auditOk
          (completeTask params api cfg clock auditOk s0)
          (incrementWriteCounter clock.today 1)
          (∃ d, api.patch = Except.ok d)) ∧
    (∀ params api cfg clock auditOk s0,
        pipelineDiscipline clock s0 auditOk
          (moveTask params api cfg clock auditOk s0)
          (incrementWriteCounter clock.today 2)
          ((∃ d, api.get = Except.ok d) ∧ (∃ d, api.insert = Except.ok d) ∧
            (∃ u, api.delete = Except.ok u))) ∧
    (∀ params api cfg clock auditOk s0,
        pipelineDiscipline clock s0 auditOk
          (modifyMessage params api cfg clock auditOk s0)
          (incrementGmailModifyCounter clock.today 1)
          (∃ d, api.modify = Except.ok d)) ∧
    (∀ params api cfg clock auditOk s0,
        pipelineDiscipline clock s0 auditOk
          (createLabel params api cfg clock auditOk s0)
          (incrementWriteCounter clock.today 1)
          (∃ d, api.labelCreate = Except.ok d)) ∧
    (∀ params api cfg clock auditOk s0,
        pipelineDiscipline clock s0 auditOk
          (sendMessage params api cfg clock auditOk s0)
          (incrementGmailSendCounter clock.today 1)
          (∃ d, api.send = Except.ok d)) := by
  refine ⟨?_, ?_, ?_, ?_, ?_, ?_, ?_, ?_, ?_, ?_, ?_⟩
  · intro params api cfg clock auditOk s0
    rcases hw : checkWriteLimit cfg clock.today 1 s0 with ⟨s1, e1⟩
    have hs1 : s1 = ensureDateCurrent clock.today s0 := by
      have h := checkWriteLimit_fst cfg clock.today 1 s0
      rw [hw] at h
      exact h
    subst hs1
    cases e1 with
    | some e =>
      have hred : createEvent params api cfg clock auditOk s0 =
          guardrailOutcome e (ensureDateCurrent clock.today s0) [] := by
        simp [createEvent, hw]
      rw [hred]
      exact pipeline_of_guardrail _ _ _ _ _ _ _ rfl
    | none =>
      rcases hp : checkProtectedCalendar cfg params.calendarId
          (ensureDateCurrent clock.today s0) with ⟨s2, e2⟩
      have hs2 : s2 = ensureDateCurrent clock.today s0 := by
        have h := checkProtectedCalendar_fst cfg params.calendarId
          (ensureDateCurrent clock.today s0)
        rw [hp] at h
        exact h
      subst hs2
      cases e2 with
      | some e =>
        have hred : createEvent params api cfg clock auditOk s0 =
            guardrailOutcome e (ensureDateCurrent clock.today s0) [] := by
          simp [createEvent, hw, hp]
        rw [hred]
        exact pipeline_of_guardrail _ _ _ _ _ _ _ rfl
      | none =>
        cases hi : api.insert with
        | error f =>
          have hred : createEvent params api cfg clock auditOk s0 =
              apiFailureOutcome f (ensureDateCurrent clock.today s0)
                ["events.insert"] := by
            simp [createEvent, hw, hp, hi]
          rw [hred]
          exact pipeline_of_apiFailure _ _ _ _ _ _ _
        | ok d =>
          refine pipeline_of_success _ _ _ _ _ _
            ⟨[("id", d.id.getD ""), ("title", d.summary.getD "")], by simp [createEvent, hw, hp, hi]⟩
            (by simp [createEvent, hw, hp, hi])
            ⟨d, rfl⟩
            (fun ha => by simp [createEvent, hw, hp, hi, ha])
  · intro params api cfg clock auditOk s0
    rcases hw : checkWriteLimit cfg clock.today 1 s0 with ⟨s1, e1⟩
    have hs1 : s1 = ensureDateCurrent clock.today s0 := by
      have h := checkWriteLimit_fst cfg clock.today 1 s0
      rw [hw] at h
      exact h
    subst hs1
    cases e1 with
    | some e =>
      have hred : updateEvent params api cfg clock auditOk s0 =
          guardrailOutcome e (ensureDateCurrent clock.today s0) [] := by
        simp [updateEvent, hw]
      rw [hred]
      exact pipeline_of_guardrail _ _ _ _ _ _ _ rfl
    | none =>
      rcases hp : checkProtectedCalendar cfg params.calendarId
          (ensureDateCurrent clock.today s0) with ⟨s2, e2⟩
      have hs2 : s2 = ensureDateCurrent clock.today s0 := by
        have h := checkProtectedCalendar_fst cfg params.calendarId
          (ensureDateCurrent clock.today s0)
        rw [hp] at h
        exact h
      subst hs2
      cases e2 with
      | some e =>
        have hred : updateEvent params api cfg clock auditOk s0 =
            guardrailOutcome e (ensureDateCurrent clock.today s0) [] := by
          simp [updateEvent, hw, hp]
        rw [hred]
        exact pipeline_of_guardrail _ _ _ _ _ _ _ rfl
      | none =>
        cases hg : api.get with
        | error f =>
          have hred : updateEvent params api cfg clock auditOk s0 =
              apiFailureOutcome f (ensureDateCurrent clock.today s0)
                ["events.get"] := by
            simp [updateEvent, hw, hp, hg]
          rw [hred]
          exact pipeline_of_apiFailure _ _ _ _ _ _ _
        | ok existing =>
          cases hend : existing.endTimeMs with
          | some endMs =>
            rcases hpast : checkPastEventProtection cfg clock.nowMs endMs
                (ensureDateCurrent clock.today s0) with ⟨s3, e3⟩
            have hs3 : s3 = ensureDateCurrent clock.today s0 := by
              have h := checkPastEventProtection_fst cfg clock.nowMs endMs
                (ensureDateCurrent clock.today s0)
              rw [hpast] at h
              exact h
            subst hs3
            cases e3 with
            | some e =>
              have hred : updateEvent params api cfg clock auditOk s0 =
                  guardrailOutcome e (ensureDateCurrent clock.today s0)
                    ["events.get"] := by
                simp [updateEvent, hw, hp, hg, hend, hpast]
              rw [hred]
              exact pipeline_of_guardrail _ _ _ _ _ _ _ (by decide)
            | none =>
              cases hpatch : api.patch with
              | error f =>
                have hred : updateEvent params api cfg clock auditOk s0 =
                    apiFailureOutcome f (ensureDateCurrent clock.today s0)
                      ["events.get", "events.patch"] := by
                  simp [updateEvent, hw, hp, hg, hend, hpast, hpatch]
                rw [hred]
                exact pipeline_of_apiFailure _ _ _ _ _ _ _
              | ok data =>
                refine pipeline_of_success _ _ _ _ _ _
                  ⟨[("id", data.id.getD ""), ("title", data.summary.getD "")], by simp [updateEvent, hw, hp, hg, hend, hpast, hpatch]⟩
                  (by simp [updateEvent, hw, hp, hg, hend, hpast, hpatch])
                  ⟨⟨existing, rfl⟩, ⟨data, rfl⟩⟩
                  (fun ha => by
                    simp [updateEvent, hw, hp, hg, hend, hpast, hpatch, ha])
          | none =>
            cases hpatch : api.patch with
            | error f =>
              have hred : updateEvent params api cfg clock auditOk s0 =
                  apiFailureOutcome f (ensureDateCurrent clock.today s0)
                    ["events.get", "events.patch"] := by
                simp [updateEvent, hw, hp, hg, hend, hpatch]
              rw [hred]
              exact pipeline_of_apiFailure _ _ _ _ _ _ _
            | ok data =>
              refine pipeline_of_success _ _ _ _ _ _
                ⟨[("id", data.id.getD ""), ("title", data.summary.getD "")], by simp [updateEvent, hw, hp, hg, hend, hpatch]⟩
                (by simp [updateEvent, hw, hp, hg, hend, hpatch])
                ⟨⟨existing, rfl⟩, ⟨data, rfl⟩⟩
                (fun ha => by simp [updateEvent, hw, hp, hg, hend, hpatch, ha])
  · intro params api cfg clock auditOk s0
    rcases hw : checkWriteLimit cfg clock.today 1 s0 with ⟨s1, e1⟩
    have hs1 : s1 = ensureDateCurrent clock.today s0 := by
      have h := checkWriteLimit_fst cfg clock.today 1 s0
      rw [hw] at h
      exact h
    subst hs1
    cases e1 with
    | some e =>
      have hred : deleteEvent params api cfg clock auditOk s0 =
          guardrailOutcome e (ensureDateCurrent clock.today s0) [] := by
        simp [deleteEvent, hw]
      rw [hred]
      exact pipeline_of_guardrail _ _ _ _ _ _ _ rfl
    | none =>
      rcases hp : checkProtectedCalendar cfg params.calendarId
          (ensureDateCurrent clock.today s0) with ⟨s2, e2⟩
      have hs2 : s2 = ensureDateCurrent clock.today s0 := by
        have h := checkProtectedCalendar_fst cfg params.calendarId
          (ensureDateCurrent clock.today s0)
        rw [hp] at h
        exact h
      subst hs2
      cases e2 with
      | some e =>
        have hred : deleteEvent params api cfg clock auditOk s0 =
            guardrailOutcome e (ensureDateCurrent clock.today s0) [] := by
          simp [deleteEvent, hw, hp]
        rw [hred]
        exact pipeline_of_guardrail _ _ _ _ _ _ _ rfl
      | none =>
        cases hg : api.get with
        | error f =>
          have hred : deleteEvent params api cfg clock auditOk s0 =
              apiFailureOutcome f (ensureDateCurrent clock.today s0)
                ["events.get"] := by
            simp [deleteEvent, hw, hp, hg]
          rw [hred]
          exact pipeline_of_apiFailure _ _ _ _ _ _ _
        | ok existing =>
          have hpastgen : ∀ s3 : GuardState,
              (match existing.endTimeMs with
               | some endMs => checkPastEventProtection cfg clock.nowMs endMs s3
               | none => (s3, none)).1 = s3 := by
            intro s3
            cases existing.endTimeMs with
            | some endMs => exact checkPastEventProtection_fst cfg clock.nowMs endMs s3
            | none => rfl
          rcases hpast : (match existing.endTimeMs with
              | some endMs => checkPastEventProtection cfg clock.nowMs endMs
                  (ensureDateCurrent clock.today s0)
              | none => ((ensureDateCurrent clock.today s0), none)) with ⟨s3, e3⟩
          have hs3 : s3 = ensureDateCurrent clock.today s0 := by
            have h := hpastgen (ensureDateCurrent clock.today s0)
            rw [hpast] at h
            exact h
          subst hs3
          cases e3 with
          | some e =>
            have hred : deleteEvent params api cfg clock auditOk s0 =
                guardrailOutcome e (ensureDateCurrent clock.today s0)
                  ["events.get"] := by
              simp [deleteEvent, hw, hp, hg, hpast]
            rw [hred]
            exact pipeline_of_guardrail _ _ _ _ _ _ _ (by decide)
          | none =>
            rcases hrec : checkRecurringSeriesDelete cfg
                ⟨existing.recurrence, existing.recurringEventId⟩
                (ensureDateCurrent clock.today s0) with ⟨s4, e4⟩
            have hs4 : s4 = ensureDateCurrent clock.today s0 := by
              have h := checkRecurringSeriesDelete_fst cfg
                ⟨existing.recurrence, existing.recurringEventId⟩
                (ensureDateCurrent clock.today s0)
              rw [hrec] at h
              exact h
            subst hs4
            cases e4 with
            | some e =>
              have hred : deleteEvent params api cfg clock auditOk s0 =
                  guardrailOutcome e (ensureDateCurrent clock.today s0)
                    ["events.get"] := by
                simp [deleteEvent, hw, hp, hg, hpast, hrec]
              rw [hred]
              exact pipeline_of_guardrail _ _ _ _ _ _ _ (by decide)
            | none =>
              cases hdel : api.delete with
              | error f =>
                have hred : deleteEvent params api cfg clock auditOk s0 =
                    apiFailureOutcome f (ensureDateCurrent clock.today s0)
                      ["events.get", "events.delete"] := by
                  simp [deleteEvent, hw, hp, hg, hpast, hrec, hdel]
                rw [hred]
                exact pipeline_of_apiFailure _ _ _ _ _ _ _
              | ok u =>
                refine pipeline_of_success _ _ _ _ _ _
                  ⟨[("success", "true"), ("deletedTitle", existing.summary.getD "(no title)")], by simp [deleteEvent, hw, hp, hg, hpast, hrec, hdel]⟩
                  (by simp [deleteEvent, hw, hp, hg, hpast, hrec, hdel])
                  ⟨⟨existing, rfl⟩, ⟨u, rfl⟩⟩
                  (fun ha => by
                    simp [deleteEvent, hw, hp, hg, hpast, hrec, hdel, ha])
  · intro params api cfg clock auditOk s0
    rcases hw : checkWriteLimit cfg clock.today 1 s0 with ⟨s1, e1⟩
    have hs1 : s1 = ensureDateCurrent clock.today s0 := by
      have h := checkWriteLimit_fst cfg clock.today 1 s0
      rw [hw] at h
      exact h
    subst hs1
    cases e1 with
    | some e =>
      have hred : createTask params api cfg clock auditOk s0 =
          guardrailOutcome e (ensureDateCurrent clock.today s0) [] := by
        simp [createTask, hw]
      rw [hred]
      exact pipeline_of_guardrail _ _ _ _ _ _ _ rfl
    | none =>
      rcases hp : checkProtectedTaskList cfg (resolveListId params.taskListId)
          (ensureDateCurrent clock.today s0) with ⟨s2, e2⟩
      have hs2 : s2 = ensureDateCurrent clock.today s0 := by
        have h := checkProtectedTaskList_fst cfg (resolveListId params.taskListId)
          (ensureDateCurrent clock.today s0)
        rw [hp] at h
        exact h
      subst hs2
      cases e2 with
      | some e =>
        have hred : createTask params api cfg clock auditOk s0 =
            guardrailOutcome e (ensureDateCurrent clock.today s0) [] := by
          simp [createTask, hw, hp]
        rw [hred]
        exact pipeline_of_guardrail _ _ _ _ _ _ _ rfl
      | none =>
        cases hi : api.insert with
        | error f =>
          have hred : createTask params api cfg clock auditOk s0 =
              apiFailureOutcome f (ensureDateCurrent clock.today s0)
                ["tasks.insert"] := by
            simp [createTask, hw, hp, hi]
          rw [hred]
          exact pipeline_of_apiFailure _ _ _ _ _ _ _
        | ok d =>
          refine pipeline_of_success _ _ _ _ _ _
            ⟨[("id", d.id.getD ""), ("title", d.title.getD "")], by simp [createTask, hw, hp, hi]⟩
            (by simp [createTask, hw, hp, hi])
            ⟨d, rfl⟩
            (fun ha => by simp [createTask, hw, hp, hi, ha])
  · intro params api cfg clock auditOk s0
    rcases hw : checkWriteLimit cfg clock.today 1 s0 with ⟨s1, e1⟩
    have hs1 : s1 = ensureDateCurrent clock.today s0 := by
      have h := checkWriteLimit_fst cfg clock.today 1 s0
      rw [hw] at h
      exact h
    subst hs1
    cases e1 with
    | some e =>
      have hred : updateTask params api cfg clock auditOk s0 =
          guardrailOutcome e (ensureDateCurrent clock.today s0) [] := by
        simp [updateTask, hw]
      rw [hred]
      exact pipeline_of_guardrail _ _ _ _ _ _ _ rfl
    | none =>
      rcases hp : checkProtectedTaskList cfg params.taskListId
          (ensureDateCurrent clock.today s0) with ⟨s2, e2⟩
      have hs2 : s2 = ensureDateCurrent clock.today s0 := by
        have h := checkProtectedTaskList_fst cfg params.taskListId
          (ensureDateCurrent clock.today s0)
        rw [hp] at h
        exact h
      subst hs2
      cases e2 with
      | some e =>
        have hred : updateTask params api cfg clock auditOk s0 =
            guardrailOutcome e (ensureDateCurrent clock.today s0) [] := by
          simp [updateTask, hw, hp]
        rw [hred]
        exact pipeline_of_guardrail _ _ _ _ _ _ _ rfl
      | none =>
        cases hg : api.get with
        | error f =>
          have hred : updateTask params api cfg clock auditOk s0 =
              apiFailureOutcome f (ensureDateCurrent clock.today s0)
                ["tasks.get"] := by
            simp [updateTask, hw, hp, hg]
          rw [hred]
          exact pipeline_of_apiFailure _ _ _ _ _ _ _
        | ok existing =>
          cases hpatch : api.patch with
          | error f =>
            have hred : updateTask params api cfg clock auditOk s0 =
                apiFailureOutcome f (ensureDateCurrent clock.today s0)
                  ["tasks.get", "tasks.patch"] := by
              simp [updateTask, hw, hp, hg, hpatch]
            rw [hred]
            exact pipeline_of_apiFailure _ _ _ _ _ _ _
          | ok data =>
            refine pipeline_of_success _ _ _ _ _ _
              ⟨[("id", data.id.getD ""), ("title", data.title.getD ""), ("status", data.status.getD "")], by simp [updateTask, hw, hp, hg, hpatch]⟩
              (by simp [updateTask, hw, hp, hg, hpatch])
              ⟨⟨existing, rfl⟩, ⟨data, rfl⟩⟩
              (fun ha => by simp [updateTask, hw, hp, hg, hpatch, ha])
  · intro params api cfg clock auditOk s0
    rcases hw : checkWriteLimit cfg clock.today 1 s0 with ⟨s1, e1⟩
    have hs1 : s1 = ensureDateCurrent clock.today s0 := by
      have h := checkWriteLimit_fst cfg clock.today 1 s0
      rw [hw] at h
      exact h
    subst hs1
    cases e1 with
    | some e =>
      have hred : deleteTask params api cfg clock auditOk s0 =
          guardrailOutcome e (ensureDateCurrent clock.today s0) [] := by
        simp [deleteTask, hw]
      rw [hred]
      exact pipeline_of_guardrail _ _ _ _ _ _ _ rfl
    | none =>
      rcases hp : checkProtectedTaskList cfg params.taskListId
          (ensureDateCurrent clock.today s0) with ⟨s2, e2⟩
      have hs2 : s2 = ensureDateCurrent clock.today s0 := by
        have h := checkProtectedTaskList_fst cfg params.taskListId
          (ensureDateCurrent clock.today s0)
        rw [hp] at h
        exact h
      subst hs2
      cases e2 with
      | some e =>
        have hred : deleteTask params api cfg clock auditOk s0 =
            guardrailOutcome e (ensureDateCurrent clock.today s0) [] := by
          simp [deleteTask, hw, hp]
        rw [hred]
        exact pipeline_of_guardrail _ _ _ _ _ _ _ rfl
      | none =>
        cases hg : api.get with
        | error f =>
          have hred : deleteTask params api cfg clock auditOk s0 =
              apiFailureOutcome f (ensureDateCurrent clock.today s0)
                ["tasks.get"] := by
            simp [deleteTask, hw, hp, hg]
          rw [hred]
          exact pipeline_of_apiFailure _ _ _ _ _ _ _
        | ok existing =>
          cases hdel : api.delete with
          | error f =>
            have hred : deleteTask params api cfg clock auditOk s0 =
                apiFailureOutcome f (ensureDateCurrent clock.today s0)
                  ["tasks.get", "tasks.delete"] := by
              simp [deleteTask, hw, hp, hg, hdel]
            rw [hred]
            exact pipeline_of_apiFailure _ _ _ _ _ _ _
          | ok u =>
            refine pipeline_of_success _ _ _ _ _ _
              ⟨[("success", "true"), ("deletedTitle", existing.title.getD "(no title)")], by simp [deleteTask, hw, hp, hg, hdel]⟩
              (by simp [deleteTask, hw, hp, hg, hdel])
              ⟨⟨existing, rfl⟩, ⟨u, rfl⟩⟩
              (fun ha => by simp [deleteTask, hw, hp, hg, hdel, ha])
  · intro params api cfg clock auditOk s0
    rcases hw : checkWriteLimit cfg clock.today 1 s0 with ⟨s1, e1⟩
    have hs1 : s1 = ensureDateCurrent clock.today s0 := by
      have h := checkWriteLimit_fst cfg clock.today 1 s0
      rw [hw] at h
      exact h
    subst hs1
    cases e1 with
    | some e =>
      have hred : completeTask params api cfg clock auditOk s0 =
          guardrailOutcome e (ensureDateCurrent clock.today s0) [] := by
        simp [completeTask, hw]
      rw [hred]
      exact pipeline_of_guardrail _ _ _ _ _ _ _ rfl
    | none =>
      rcases hp : checkProtectedTaskList cfg params.taskListId
          (ensureDateCurrent clock.today s0) with ⟨s2, e2⟩
      have hs2 : s2 = ensureDateCurrent clock.today s0 := by
        have h := checkProtectedTaskList_fst cfg params.taskListId
          (ensureDateCurrent clock.today s0)
        rw [hp] at h
        exact h
      subst hs2
      cases e2 with
      | some e =>
        have hred : completeTask params api cfg clock auditOk s0 =
            guardrailOutcome e (ensureDateCurrent clock.today s0) [] := by
          simp [completeTask, hw, hp]
        rw [hred]
        exact pipeline_of_guardrail _ _ _ _ _ _ _ rfl
      | none =>
        cases hpatch : api.patch with
        | error f =>
          have hred : completeTask params api cfg clock auditOk s0 =
              apiFailureOutcome f (ensureDateCurrent clock.today s0)
                ["tasks.patch"] := by
            simp [completeTask, hw, hp, hpatch]
          rw [hred]
          exact pipeline_of_apiFailure _ _ _ _ _ _ _
        | ok data =>
          refine pipeline_of_success _ _ _ _ _ _
            ⟨[("id", data.id.getD ""), ("title", data.title.getD ""), ("status", "completed")], by simp [completeTask, hw, hp, hpatch]⟩
            (by simp [completeTask, hw, hp, hpatch])
            ⟨data, rfl⟩
            (fun ha => by simp [completeTask, hw, hp, hpatch, ha])
  · intro params api cfg clock auditOk s0
    rcases hw : checkWriteLimit cfg clock.today 2 s0 with ⟨s1, e1⟩
    have hs1 : s1 = ensureDateCurrent clock.today s0 := by
      have h := checkWriteLimit_fst cfg clock.today 2 s0
      rw [hw] at h
      exact h
    subst hs1
    cases e1 with
    | some e =>
      have hred : moveTask params api cfg clock auditOk s0 =
          guardrailOutcome e (ensureDateCurrent clock.today s0) [] := by
        simp [moveTask, hw]
      rw [hred]
      exact pipeline_of_guardrail _ _ _ _ _ _ _ rfl
    | none =>
      rcases hp : checkProtectedTaskList cfg params.sourceListId
          (ensureDateCurrent clock.today s0) with ⟨s2, e2⟩
      have hs2 : s2 = ensureDateCurrent clock.today s0 := by
        have h := checkProtectedTaskList_fst cfg params.sourceListId
          (ensureDateCurrent clock.today s0)
        rw [hp] at h
        exact h
      subst hs2
      cases e2 with
      | some e =>
        have hred : moveTask params api cfg clock auditOk s0 =
            guardrailOutcome e (ensureDateCurrent clock.today s0) [] := by
          simp [moveTask, hw, hp]
        rw [hred]
        exact pipeline_of_guardrail _ _ _ _ _ _ _ rfl
      | none =>
        rcases hq : checkProtectedTaskList cfg params.destinationListId
            (ensureDateCurrent clock.today s0) with ⟨s3, e3⟩
        have hs3 : s3 = ensureDateCurrent clock.today s0 := by
          have h := checkProtectedTaskList_fst cfg params.destinationListId
            (ensureDateCurrent clock.today s0)
          rw [hq] at h
          exact h
        subst hs3
        cases e3 with
        | some e =>
          have hred : moveTask params api cfg clock auditOk s0 =
              guardrailOutcome e (ensureDateCurrent clock.today s0) [] := by
            simp [moveTask, hw, hp, hq]
          rw [hred]
          exact pipeline_of_guardrail _ _ _ _ _ _ _ rfl
        | none =>
          cases hg : api.get with
          | error f =>
            have hred : moveTask params api cfg clock auditOk s0 =
                apiFailureOutcome f (ensureDateCurrent clock.today s0)
                  ["tasks.get"] := by
              simp [moveTask, hw, hp, hq, hg]
            rw [hred]
            exact pipeline_of_apiFailure _ _ _ _ _ _ _
          | ok task =>
            cases hi : api.insert with
            | error f =>
              have hred : moveTask params api cfg clock auditOk s0 =
                  apiFailureOutcome f (ensureDateCurrent clock.today s0)
                    ["tasks.get", "tasks.insert"] := by
                simp [moveTask, hw, hp, hq, hg, hi]
              rw [hred]
              exact pipeline_of_apiFailure _ _ _ _ _ _ _
            | ok newTask =>
              cases hdel : api.delete with
              | error f =>
                have hred : moveTask params api cfg clock auditOk s0 =
                    apiFailureOutcome f (ensureDateCurrent clock.today s0)
                      ["tasks.get", "tasks.insert", "tasks.delete"] := by
                  simp [moveTask, hw, hp, hq, hg, hi, hdel]
                rw [hred]
                exact pipeline_of_apiFailure _ _ _ _ _ _ _
              | ok u =>
                refine pipeline_of_success _ _ _ _ _ _
                  ⟨[("id", newTask.id.getD ""), ("title", newTask.title.getD ""), ("newListId", params.destinationListId)], by simp [moveTask, hw, hp, hq, hg, hi, hdel]⟩
                  (by simp [moveTask, hw, hp, hq, hg, hi, hdel])
                  ⟨⟨task, rfl⟩, ⟨newTask, rfl⟩, ⟨u, rfl⟩⟩
                  (fun ha => by simp [moveTask, hw, hp, hq, hg, hi, hdel, ha])
  · intro params api cfg clock auditOk s0
    rcases hw : checkGmailModifyLimit cfg clock.today 1 s0 with ⟨s1, e1⟩
    have hs1 : s1 = ensureDateCurrent clock.today s0 := by
      have h := checkGmailModifyLimit_fst cfg clock.today 1 s0
      rw [hw] at h
      exact h
    subst hs1
    cases e1 with
    | some e =>
      have hred : modifyMessage params api cfg clock auditOk s0 =
          guardrailOutcome e (ensureDateCurrent clock.today s0) [] := by
        simp [modifyMessage, hw]
      rw [hred]
      exact pipeline_of_guardrail _ _ _ _ _ _ _ rfl
    | none =>
      cases hm : api.modify with
      | error f =>
        have hred : modifyMessage params api cfg clock auditOk s0 =
            apiFailureOutcome f (ensureDateCurrent clock.today s0)
              ["messages.modify"] := by
          simp [modifyMessage, hw, hm]
        rw [hred]
        exact pipeline_of_apiFailure _ _ _ _ _ _ _
      | ok data =>
        refine pipeline_of_success _ _ _ _ _ _
          ⟨[("id", data.id.getD ""), ("labelIds", String.intercalate "," data.labelIds)], by simp [modifyMessage, hw, hm]⟩
          (by simp [modifyMessage, hw, hm])
          ⟨data, rfl⟩
          (fun ha => by simp [modifyMessage, hw, hm, ha])
  · intro params api cfg clock auditOk s0
    rcases hw : checkWriteLimit cfg clock.today 1 s0 with ⟨s1, e1⟩
    have hs1 : s1 = ensureDateCurrent clock.today s0 := by
      have h := checkWriteLimit_fst cfg clock.today 1 s0
      rw [hw] at h
      exact h
    subst hs1
    cases e1 with
    | some e =>
      have hred : createLabel params api cfg clock auditOk s0 =
          guardrailOutcome e (ensureDateCurrent clock.today s0) [] := by
        simp [createLabel, hw]
      rw [hred]
      exact pipeline_of_guardrail _ _ _ _ _ _ _ rfl
    | none =>
      cases hc : api.labelCreate with
      | error f =>
        have hred : createLabel params api cfg clock auditOk s0 =
            apiFailureOutcome f (ensureDateCurrent clock.today s0)
              ["labels.create"] := by
          simp [createLabel, hw, hc]
        rw [hred]
        exact pipeline_of_apiFailure _ _ _ _ _ _ _
      | ok data =>
        refine pipeline_of_success _ _ _ _ _ _
          ⟨[("id", data.id.getD ""), ("name", data.name.getD "")], by simp [createLabel, hw, hc]⟩
          (by simp [createLabel, hw, hc])
          ⟨data, rfl⟩
          (fun ha => by simp [createLabel, hw, hc, ha])
  · intro params api cfg clock auditOk s0
    rcases hw : checkGmailSendLimit cfg clock.today 1 s0 with ⟨s1, e1⟩
    have hs1 : s1 = ensureDateCurrent clock.today s0 := by
      have h := checkGmailSendLimit_fst cfg clock.today 1 s0
      rw [hw] at h
      exact h
    subst hs1
    cases e1 with
    | some e =>
      have hred : sendMessage params api cfg clock auditOk s0 =
          guardrailOutcome e (ensureDateCurrent clock.today s0) [] := by
        simp [sendMessage, hw]
      rw [hred]
      exact pipeline_of_guardrail _ _ _ _ _ _ _ rfl
    | none =>
      cases hsend : api.send with
      | error f =>
        have hred : sendMessage params api cfg clock auditOk s0 =
            apiFailureOutcome f (ensureDateCurrent clock.today s0)
              ["messages.send"] := by
          simp [sendMessage, hw, hsend]
        rw [hred]
        exact pipeline_of_apiFailure _ _ _ _ _ _ _
      | ok data =>
        refine pipeline_of_success _ _ _ _ _ _
          ⟨[("id", data.id.getD ""), ("threadId", data.threadId.getD "")], by simp [sendMessage, hw, hsend]⟩
          (by simp [sendMessage, hw, hsend])
          ⟨data, rfl⟩
          (fun ha => by simp [sendMessage, hw, hsend, ha])

/-- Witness for C1 at concrete inputs: a `createEvent` against the protected
calendar makes no mutating remote call, and a `createEvent` whose remote
insert raises leaves the counters at the rolled-over state and writes no
audit entry. -/
theorem guarded_pipeline_all_witness :
    mutatingCalls
        (createEvent wProtectedCreateParams wCalApiOk wCfg wClock true
          wState).remoteCalls = [] ∧
    (createEvent wCreateParams wCalApiInsertFail wCfg wClock true wState).state
        = ensureDateCurrent wClock.today wState ∧
    (createEvent wCreateParams wCalApiInsertFail wCfg wClock true
        wState).auditEntries = [] := by
  have h1 := guarded_pipeline_all.1 wProtectedCreateParams wCalApiOk wCfg wClock
    true wState
  have h2 := guarded_pipeline_all.1 wCreateParams wCalApiInsertFail wCfg wClock
    true wState
  refine ⟨h1.2.1 ⟨⟨true, ErrorCode.PROTECTED_RESOURCE, "Calendar is protected"⟩,
      by decide, by decide⟩, ?_, ?_⟩
  · exact (h2.1 ⟨apiError 500 "Internal error", by decide⟩).1
  · exact (h2.1 ⟨apiError 500 "Internal error", by decide⟩).2

/-- Witness for C8 at concrete inputs: one February entry gives exactly the
February file; a February and a March entry give exactly two files. -/
theorem audit_month_partitioning_witness :
    logAllEntries [wEntryFeb] [] =
      [(auditFileName (monthOf wEntryFeb), .parsed (monthOf wEntryFeb) [wEntryFeb])] ∧
    (logAllEntries [wEntryFeb, wEntryMar] []).length = 2 := by
  constructor
  · exact audit_month_partitioning.1 [wEntryFeb] (monthOf wEntryFeb)
      (by simp) (by simp)
  · exact (audit_month_partitioning.2 [wEntryFeb, wEntryMar]
      (monthOf wEntryFeb) (monthOf wEntryMar) (by decide)
      (by
        intro e he
        rcases he with _ | ⟨_, h2⟩
        · exact Or.inl rfl
        · rcases h2 with _ | ⟨_, h3⟩
          · exact Or.inr rfl
          · cases h3)
      (by exact ⟨wEntryFeb, by simp, rfl⟩)
      (by exact ⟨wEntryMar, by simp, rfl⟩)).2.2

end GcalMcp
